import Mathlib

/-!
# Schema generation engine: the Int32 attribute kind

A shallow embedding of the Int32 generator element (resource and provider surfaces) of
`terraform-plugin-codegen-framework`, of the default decorator `convert.DefaultInt32`, and of
the collaborators they call.

Conventions of the embedding.

* A Go `string` and a Go `[]byte` buffer are modelled as a Lean `String`; names are
  therefore sequences of Unicode scalar values.
* A Go pointer `*T` is an `Option T`; the nil pointer is `none`.
* A Go result `(T, error)` is a pair `T × Option GoError`; the nil error is `none`.
* A Go `*Imports` accumulator that is mutated in place is passed explicitly: each
  mutating method returns the new accumulator.
* An `int32` is an `Int`; the decimal rendering of `%d` does not depend on the width.
-/

namespace Codegen

/-! ## Go standard library: formatting -/

/-- Error values: the ones built by `fmt.Errorf` and `errors.New`, identified by their
message, and the unimplemented-capability error of package `internal/schema`, which wraps
another error and is a type of its own (`*schema.UnimplementedError`). -/
inductive GoError where
  | errorf (msg : String)
  | unimplemented (err : GoError)
deriving DecidableEq, Repr

/-- Message of an error value (`err.Error()`); the unimplemented-capability error answers
with the message of the error it wraps. -/
def GoError.Error : GoError → String
  | .errorf msg => msg
  | .unimplemented err => err.Error

/-- Go `errors.New`. -/
def errorsNew (msg : String) : GoError :=
  GoError.errorf msg

/-- Lower-case hexadecimal digit table of `strconv` (`lowerhex`). -/
def lowerhex (n : Nat) : Char :=
  "0123456789abcdef".data.getD (n % 16) '0'

/-- Hexadecimal rendering on exactly `w` digits, most significant first. -/
def hexDigits : Nat → Nat → List Char
  | 0, _ => []
  | w + 1, n => hexDigits w (n / 16) ++ [lowerhex n]

/-- Go `strconv.IsPrint`. The Latin-1 range is decided by the fast path of the library; above
U+00FF the library consults the Unicode tables of the Go runtime, which `wide` stands for. -/
def IsPrint (wide : Char → Bool) (r : Char) : Bool :=
  if r.toNat ≤ 0xFF then
    if 0x20 ≤ r.toNat ∧ r.toNat ≤ 0x7E then true
    else if 0xA1 ≤ r.toNat then r.toNat != 0xAD
    else false
  else wide r

/-- Go `strconv.appendEscapedRune` with quote `"` and both flags off. -/
def appendEscapedRune (wide : Char → Bool) (r : Char) : List Char :=
  if r = '"' ∨ r = '\\' then ['\\', r]
  else if IsPrint wide r then [r]
  else if r.toNat = 7 then ['\\', 'a']
  else if r.toNat = 8 then ['\\', 'b']
  else if r.toNat = 12 then ['\\', 'f']
  else if r.toNat = 10 then ['\\', 'n']
  else if r.toNat = 13 then ['\\', 'r']
  else if r.toNat = 9 then ['\\', 't']
  else if r.toNat = 11 then ['\\', 'v']
  else if r.toNat < 0x20 ∨ r.toNat = 0x7f then '\\' :: 'x' :: hexDigits 2 r.toNat
  else if r.toNat < 0x10000 then '\\' :: 'u' :: hexDigits 4 r.toNat
  else '\\' :: 'U' :: hexDigits 8 r.toNat

/-- Go `strconv.Quote`, which is what the verb `%q` of `fmt` prints for a string. -/
def Quote (wide : Char → Bool) (s : String) : String :=
  String.mk ('"' :: (s.data.flatMap (appendEscapedRune wide)) ++ ['"'])

/-- Verb `%d` of `fmt` on a signed integer: signed decimal. -/
def fmtD (n : Int) : String :=
  toString n

/-- A table for the runes above U+00FF that treats all of them as printable; any table
gives the same quoting of Latin-1 text. -/
def widePrintable : Char → Bool :=
  fun _ => true

/-! ## Specification library (`terraform-plugin-codegen-spec`) -/

namespace Code

/-- Go `code.Import`: a dependency declaration, path plus optional alias. -/
structure Import where
  Alias : Option String := none
  Path : String
deriving DecidableEq, Repr

end Code

namespace Specschema

/-- Go `schema.CustomType` of the specification library. -/
structure CustomType where
  Import : Option Code.Import := none
  Type_ : String := ""
  ValueType : String := ""
deriving DecidableEq, Repr

/-- Go `schema.AssociatedExternalType` of the specification library. -/
structure AssociatedExternalType where
  Import : Option Code.Import := none
  Type_ : String := ""
deriving DecidableEq, Repr

/-- Go `schema.CustomDefault`. -/
structure CustomDefault where
  Imports : List Code.Import := []
  SchemaDefinition : String := ""
deriving DecidableEq, Repr

/-- Go `schema.Int32Default`: an optional custom default and an optional static value. -/
structure Int32Default where
  Custom : Option CustomDefault := none
  Static : Option Int := none
deriving DecidableEq, Repr

/-- Go `(*Int32Default).Equal`: nil equals only nil, otherwise field by field. -/
def Int32Default.Equal (d other : Option Int32Default) : Bool :=
  decide (d = other)

/-- Go `schema.CustomValidator`. -/
structure CustomValidator where
  Imports : List Code.Import := []
  SchemaDefinition : String := ""
deriving DecidableEq, Repr

/-- Go `schema.CustomPlanModifier`. -/
structure CustomPlanModifier where
  Imports : List Code.Import := []
  SchemaDefinition : String := ""
deriving DecidableEq, Repr

/-- Go `schema.Int32Validator`: one entry of the validator list of a specification node. -/
structure Int32Validator where
  Custom : Option CustomValidator := none
deriving DecidableEq, Repr

/-- Go `schema.Int32PlanModifier`. -/
structure Int32PlanModifier where
  Custom : Option CustomPlanModifier := none
deriving DecidableEq, Repr

/-- Go `Int32Validators.CustomValidators`: the custom validators that are set, in order. -/
def Int32Validators.CustomValidators (v : List Int32Validator) : List (Option CustomValidator) :=
  (v.filterMap (fun x => x.Custom)).map some

/-- Go `Int32PlanModifiers.CustomPlanModifiers`: the custom plan modifiers that are set. -/
def Int32PlanModifiers.CustomPlanModifiers (v : List Int32PlanModifier) :
    List (Option CustomPlanModifier) :=
  (v.filterMap (fun x => x.Custom)).map some

end Specschema

/-! ## Package `internal/schema` (imported as `generatorschema`) -/

namespace Generatorschema

/-- Go `schema.FrameworkIdentifier`: a specification-level name. -/
abbrev FrameworkIdentifier := String

/-- Go `FrameworkIdentifier.ToString`: the original lookup key. -/
def FrameworkIdentifier.ToString (identifier : FrameworkIdentifier) : String :=
  identifier

/-- Segments of a name between underscores. -/
def splitUnderscore : List Char → List (List Char)
  | [] => [[]]
  | c :: cs =>
    match splitUnderscore cs with
    | [] => [[c]]
    | seg :: rest => if c = '_' then [] :: seg :: rest else (c :: seg) :: rest

/-- First letter of a segment in upper case. -/
def capitalize : List Char → List Char
  | [] => []
  | c :: cs => c.toUpper :: cs

/-- Modelled from the spec: `FrameworkIdentifier.ToPascalCase` is not among the sources at
hand. The spec describes it as the deterministic capitalized field-name form of a name; the
tests of the Int32 attribute fix its value on `Int32_attribute` and `int32_attribute`, both
`Int32Attribute`: the name is cut at underscores, each non-empty segment gets an upper-case
first letter, and the segments are joined. -/
def FrameworkIdentifier.ToPascalCase (identifier : FrameworkIdentifier) : String :=
  String.mk ((splitUnderscore identifier.data).flatMap capitalize)

/-- Go constant `schema.TypesImport`, the default import of the primitive kinds. -/
def TypesImport : String :=
  "github.com/hashicorp/terraform-plugin-framework/types"

/-- Go constant `schema.ValidatorImport`. -/
def ValidatorImport : String :=
  "github.com/hashicorp/terraform-plugin-framework/schema/validator"

/-- Go constant `schema.PlanModifierImport`. -/
def PlanModifierImport : String :=
  "github.com/hashicorp/terraform-plugin-framework/resource/schema/planmodifier"

/-- Modelled from the spec: the Import Set type `schema.Imports` is not among the sources at
hand. Spec 4.3: an ordered, deduplicated collection of import declarations whose uniqueness
key is the path and whose order is the order of first occurrence. -/
structure Imports where
  imports : List Code.Import := []
deriving DecidableEq, Repr

/-- Modelled from the spec: `schema.NewImports`, the empty Import Set. -/
def NewImports : Imports :=
  { imports := [] }

/-- Modelled from the spec: `Imports.Add` is a no-op if the path is already present (the
first declaration of a path wins), otherwise the declaration is put last. -/
def Imports.Add (i : Imports) (c : Code.Import) : Imports :=
  if i.imports.any (fun e => decide (e.Path = c.Path)) then i
  else { imports := i.imports ++ [c] }

/-- Modelled from the spec: `Imports.Append` (the merge of spec 4.3) appends only the unseen
paths of the other set, in the order encountered. -/
def Imports.Append (i : Imports) (other : Imports) : Imports :=
  other.imports.foldl Imports.Add i

/-- Modelled from the spec: `Imports.All` returns the final deduplicated sequence. -/
def Imports.All (i : Imports) : List Code.Import :=
  i.imports

/-- Go `schema.AssocExtType`: the wrapper of an external-type association. A nil
`*AssocExtType` is `none` at the place of use. -/
structure AssocExtType where
  AssociatedExternalType : Specschema.AssociatedExternalType
deriving DecidableEq, Repr

/-- Modelled from the spec: `schema.NewAssocExtType` is not among the sources at hand. The
constructor tests of the Int32 attribute expect a nil field for a node without association,
so nil maps to nil and an association is wrapped. -/
def NewAssocExtType (a : Option Specschema.AssociatedExternalType) : Option AssocExtType :=
  a.map (fun x => { AssociatedExternalType := x })

/-- Modelled from the spec: `schema.AssociatedExternalTypeImports`, the fixed support imports
of bridging code, in the order the import tests of the Int32 attribute list them. -/
def AssociatedExternalTypeImports : Imports :=
  ((((NewImports.Add { Path := "fmt" }).Add
    { Path := "github.com/hashicorp/terraform-plugin-framework/diag" }).Add
    { Path := "github.com/hashicorp/terraform-plugin-framework/attr" }).Add
    { Path := "github.com/hashicorp/terraform-plugin-go/tftypes" }).Add
    { Path := "github.com/hashicorp/terraform-plugin-framework/types/basetypes" }

/-- Modelled from the spec: `(*AssocExtType).Imports`, callable on nil. It contributes the
declaration of the association when that is set with a non-empty path, as the sibling
decorator `DefaultInt32.Imports` does for its own imports. -/
def AssocExtType.Imports (a : Option AssocExtType) : Imports :=
  match a with
  | none => NewImports
  | some x =>
    match x.AssociatedExternalType.Import with
    | none => NewImports
    | some imp => if imp.Path.length > 0 then NewImports.Add imp else NewImports

/-- Modelled from the spec: `(*AssocExtType).Equal`, callable on nil; a deep structural
comparison (spec 4.1). -/
def AssocExtType.Equal (a other : Option AssocExtType) : Bool :=
  decide (a = other)

end Generatorschema

/-! ## Package `internal/model` -/

namespace Model

/-- Go `model.Field`: a generated model field. -/
structure Field where
  Name : String := ""
  TfsdkName : String := ""
  ValueType : String := ""
deriving DecidableEq, Repr

/-- Go constant `model.Int32ValueType`, the built-in value type of the Int32 kind. -/
def Int32ValueType : String :=
  "types.Int32"

end Model

/-! ## Package `internal/convert`: the decorators -/

namespace Convert

open Generatorschema

/-- Go `convert.ComputedOptionalRequired`; the specification value is a string kind. -/
structure ComputedOptionalRequired where
  computedOptionalRequired : String := ""
deriving DecidableEq, Repr

/-- Go `convert.NewComputedOptionalRequired`. -/
def NewComputedOptionalRequired (c : String) : ComputedOptionalRequired :=
  { computedOptionalRequired := c }

/-- Modelled from the spec: `ComputedOptionalRequired.Schema` is not among the sources at
hand. It emits the requiredness markers; the schema tests fix the text of `required`,
`optional` and `computed`, and any other value than the four of the specification library
emits nothing. -/
def ComputedOptionalRequired.Schema (c : ComputedOptionalRequired) : String :=
  if c.computedOptionalRequired = "computed" then "Computed: true,\n"
  else if c.computedOptionalRequired = "computed_optional" then "Optional: true,\nComputed: true,\n"
  else if c.computedOptionalRequired = "optional" then "Optional: true,\n"
  else if c.computedOptionalRequired = "required" then "Required: true,\n"
  else ""

/-- Modelled from the spec: structural equality of the requiredness decorator. -/
def ComputedOptionalRequired.Equal (c other : ComputedOptionalRequired) : Bool :=
  decide (c = other)

/-- Go `convert.OptionalRequired`, the requiredness decorator of the provider surface. -/
structure OptionalRequired where
  optionalRequired : String := ""
deriving DecidableEq, Repr

/-- Go `convert.NewOptionalRequired`. -/
def NewOptionalRequired (c : String) : OptionalRequired :=
  { optionalRequired := c }

/-- Modelled from the spec: `OptionalRequired.Schema`, the markers of the provider surface. -/
def OptionalRequired.Schema (c : OptionalRequired) : String :=
  if c.optionalRequired = "optional" then "Optional: true,\n"
  else if c.optionalRequired = "required" then "Required: true,\n"
  else ""

/-- Modelled from the spec: structural equality. -/
def OptionalRequired.Equal (c other : OptionalRequired) : Bool :=
  decide (c = other)

/-- Go `convert.CustomTypePrimitive`: the custom-type descriptor of a primitive kind, built
from the custom type, the external-type association and the name of the element. -/
structure CustomTypePrimitive where
  associatedExternalType : Option Specschema.AssociatedExternalType := none
  customType : Option Specschema.CustomType := none
  name : String := ""
deriving DecidableEq, Repr

/-- Go `convert.NewCustomTypePrimitive`. -/
def NewCustomTypePrimitive (c : Option Specschema.CustomType)
    (a : Option Specschema.AssociatedExternalType) (name : String) : CustomTypePrimitive :=
  { associatedExternalType := a, customType := c, name := name }

/-- Modelled from the spec: structural equality of the descriptor. -/
def CustomTypePrimitive.Equal (c other : CustomTypePrimitive) : Bool :=
  decide (c = other)

/-- Modelled from the spec: `CustomTypePrimitive.Imports` is not among the sources at hand.
The default import of the kind is contributed only when no custom type suppresses it; a
custom type contributes its own import when that has a non-empty path (import tests
`custom-type-without-import`, `custom-type-with-import-empty-string`,
`custom-type-with-import`). -/
def CustomTypePrimitive.Imports (c : CustomTypePrimitive) : Imports :=
  match c.customType with
  | some ct =>
    match ct.Import with
    | some imp => if imp.Path.length > 0 then NewImports.Add imp else NewImports
    | none => NewImports
  | none => NewImports.Add { Path := TypesImport }

/-- Modelled from the spec: `CustomTypePrimitive.Schema`, the custom-type override fragment.
A custom type renders its type expression; otherwise an association renders the wrapper
type named after the element (schema tests `custom-type`, `associated-external-type`,
`custom-type-overriding-associated-external-type`). -/
def CustomTypePrimitive.Schema (c : CustomTypePrimitive) : String :=
  match c.customType with
  | some ct => "CustomType: " ++ ct.Type_ ++ ",\n"
  | none =>
    match c.associatedExternalType with
    | some _ => "CustomType: " ++ FrameworkIdentifier.ToPascalCase c.name ++ "Type\x7b\x7d,\n"
    | none => ""

/-- Value type of an explicit custom type; empty when there is none. -/
def CustomTypePrimitive.customValueType (c : CustomTypePrimitive) : String :=
  match c.customType with
  | some ct => ct.ValueType
  | none => ""

/-- Modelled from the spec: `CustomTypePrimitive.ValueType` is not among the sources at hand.
Spec 4.1 gives the precedence explicit custom value type > type derived from the
external-type association > built-in default of the kind; the empty result leaves the
built-in default to the caller. The derived type is the capitalized name the descriptor was
built with, followed by `Value` (model-field test `associated-external-type`). -/
def CustomTypePrimitive.ValueType (c : CustomTypePrimitive) : String :=
  if c.customValueType ≠ "" then c.customValueType
  else
    match c.associatedExternalType with
    | some _ => FrameworkIdentifier.ToPascalCase c.name ++ "Value"
    | none => ""

/-- Go constant `defaultInt32Import`. -/
def defaultInt32Import : String :=
  "github.com/hashicorp/terraform-plugin-framework/resource/schema/int32default"

/-- Go `convert.DefaultInt32`. -/
structure DefaultInt32 where
  int32Default : Option Specschema.Int32Default := none
deriving DecidableEq, Repr

/-- Go `convert.NewDefaultInt32`. -/
def NewDefaultInt32 (b : Option Specschema.Int32Default) : DefaultInt32 :=
  { int32Default := b }

/-- Go `DefaultInt32.Equal`. -/
def DefaultInt32.Equal (d other : DefaultInt32) : Bool :=
  Specschema.Int32Default.Equal d.int32Default other.int32Default

/-- Loop body of `DefaultInt32.Imports` over the imports of a custom default. -/
def addNonEmpty (imports : Imports) (i : Code.Import) : Imports :=
  if i.Path.length > 0 then imports.Add i else imports

/-- Go `DefaultInt32.Imports`. -/
def DefaultInt32.Imports (d : DefaultInt32) : Imports :=
  match d.int32Default with
  | none => NewImports
  | some x =>
    let imports1 :=
      match x.Static with
      | some _ => NewImports.Add { Path := defaultInt32Import }
      | none => NewImports
    match x.Custom with
    | some c => c.Imports.foldl addNonEmpty imports1
    | none => imports1

/-- Go `DefaultInt32.Schema`; a nil buffer and an empty buffer write the same text. -/
def DefaultInt32.Schema (d : DefaultInt32) : String :=
  match d.int32Default with
  | none => ""
  | some x =>
    match x.Static with
    | some n => "Default: int32default.StaticInt32(" ++ fmtD n ++ "),\n"
    | none =>
      match x.Custom with
      | some c =>
        if c.SchemaDefinition ≠ "" then "Default: " ++ c.SchemaDefinition ++ ",\n" else ""
      | none => ""

/-- Go `convert.DeprecationMessage`. -/
structure DeprecationMessage where
  deprecationMessage : Option String := none
deriving DecidableEq, Repr

/-- Go `convert.NewDeprecationMessage`. -/
def NewDeprecationMessage (d : Option String) : DeprecationMessage :=
  { deprecationMessage := d }

/-- Modelled from the spec: the deprecation fragment, the quoted message when one is set
(schema test `deprecation-message`). -/
def DeprecationMessage.Schema (wide : Char → Bool) (d : DeprecationMessage) : String :=
  match d.deprecationMessage with
  | some m => if m ≠ "" then "DeprecationMessage: " ++ Quote wide m ++ ",\n" else ""
  | none => ""

/-- Modelled from the spec: structural equality. -/
def DeprecationMessage.Equal (d other : DeprecationMessage) : Bool :=
  decide (d = other)

/-- Go `convert.Description`. -/
structure Description where
  description : Option String := none
deriving DecidableEq, Repr

/-- Go `convert.NewDescription`. -/
def NewDescription (d : Option String) : Description :=
  { description := d }

/-- Modelled from the spec: the description fragment, the quoted text on a description line
and on a markdown description line (schema test `description`). -/
def Description.Schema (wide : Char → Bool) (d : Description) : String :=
  match d.description with
  | some m =>
    if m ≠ "" then
      "Description: " ++ Quote wide m ++ ",\nMarkdownDescription: " ++ Quote wide m ++ ",\n"
    else ""
  | none => ""

/-- Modelled from the spec: structural equality. -/
def Description.Equal (d other : Description) : Bool :=
  decide (d = other)

/-- Go `convert.Sensitive`. -/
structure Sensitive where
  sensitive : Option Bool := none
deriving DecidableEq, Repr

/-- Go `convert.NewSensitive`. -/
def NewSensitive (s : Option Bool) : Sensitive :=
  { sensitive := s }

/-- Modelled from the spec: the sensitivity fragment (schema test `sensitive`). -/
def Sensitive.Schema (s : Sensitive) : String :=
  match s.sensitive with
  | some true => "Sensitive: true,\n"
  | _ => ""

/-- Modelled from the spec: structural equality. -/
def Sensitive.Equal (s other : Sensitive) : Bool :=
  decide (s = other)

/-- Go constant `convert.ValidatorTypeInt32`, the element type of the validator list. -/
def ValidatorTypeInt32 : String :=
  "validator.Int32"

/-- Go constant `convert.PlanModifierTypeInt32`. -/
def PlanModifierTypeInt32 : String :=
  "planmodifier.Int32"

/-- Go `convert.Validators`: the validator type and the custom validators, a slice of
pointers. -/
structure Validators where
  validatorType : String := ""
  custom : List (Option Specschema.CustomValidator) := []
deriving DecidableEq, Repr

/-- Go `convert.NewValidators`. -/
def NewValidators (t : String) (c : List (Option Specschema.CustomValidator)) : Validators :=
  { validatorType := t, custom := c }

/-- One line per schema definition that is set, each followed by a comma, in list order. -/
def definitionLines : List String → String
  | [] => ""
  | e :: es => (if e ≠ "" then e ++ ",\n" else "") ++ definitionLines es

/-- Schema definitions of the validators that are not nil. -/
def Validators.definitions (v : Validators) : List String :=
  v.custom.filterMap (fun c => c.map (fun x => x.SchemaDefinition))

/-- Modelled from the spec: `Validators.Schema` is not among the sources at hand. The
validators are emitted inside one ordered validator-list fragment, in input order, and
nothing is emitted when no validator has a schema definition (schema tests `validators`
and `validators-empty`). -/
def Validators.Schema (v : Validators) : String :=
  if (definitionLines v.definitions).length > 0 then
    "Validators: []" ++ v.validatorType ++ "\x7b\n" ++ definitionLines v.definitions ++ "\x7d,\n"
  else ""

/-- Imports of one custom validator or plan modifier: the package import `pkg` followed by
the import itself, for every import with a non-empty path. -/
def addWithPackage (pkg : String) (imports : Imports) (i : Code.Import) : Imports :=
  if i.Path.length > 0 then (imports.Add { Path := pkg }).Add i else imports

/-- Modelled from the spec: `Validators.Imports`. Every import with a non-empty path of a
custom validator is contributed, after the validator package import (import tests
`validator-custom-import`, `validator-custom-import-empty-string`). -/
def Validators.Imports (v : Validators) : Imports :=
  (v.custom.filterMap (fun c => c.map (fun x => x.Imports))).foldl
    (fun acc is => is.foldl (addWithPackage ValidatorImport) acc) NewImports

/-- Modelled from the spec: structural equality. -/
def Validators.Equal (v other : Validators) : Bool :=
  decide (v = other)

/-- Go `convert.PlanModifiers`. -/
structure PlanModifiers where
  planModifierType : String := ""
  custom : List (Option Specschema.CustomPlanModifier) := []
deriving DecidableEq, Repr

/-- Go `convert.NewPlanModifiers`. -/
def NewPlanModifiers (t : String) (c : List (Option Specschema.CustomPlanModifier)) :
    PlanModifiers :=
  { planModifierType := t, custom := c }

/-- Schema definitions of the plan modifiers that are not nil. -/
def PlanModifiers.definitions (v : PlanModifiers) : List String :=
  v.custom.filterMap (fun c => c.map (fun x => x.SchemaDefinition))

/-- Modelled from the spec: `PlanModifiers.Schema`, one ordered plan-modifier-list fragment
(schema test `plan-modifiers`). -/
def PlanModifiers.Schema (v : PlanModifiers) : String :=
  if (definitionLines v.definitions).length > 0 then
    "PlanModifiers: []" ++ v.planModifierType ++ "\x7b\n" ++ definitionLines v.definitions
      ++ "\x7d,\n"
  else ""

/-- Modelled from the spec: `PlanModifiers.Imports` (import tests
`plan-modifier-custom-import`, `plan-modifiers-custom-import-empty-string`). -/
def PlanModifiers.Imports (v : PlanModifiers) : Imports :=
  (v.custom.filterMap (fun c => c.map (fun x => x.Imports))).foldl
    (fun acc is => is.foldl (addWithPackage PlanModifierImport) acc) NewImports

/-- Modelled from the spec: structural equality. -/
def PlanModifiers.Equal (v other : PlanModifiers) : Bool :=
  decide (v = other)

end Convert

/-! ## Package `internal/resource`: the Int32 attribute -/

namespace Resource

open Generatorschema Convert

/-- Go `resource.Int32Attribute` of the specification library: the specification node. -/
structure Int32Attribute where
  ComputedOptionalRequired : String := ""
  AssociatedExternalType : Option Specschema.AssociatedExternalType := none
  CustomType : Option Specschema.CustomType := none
  Default : Option Specschema.Int32Default := none
  DeprecationMessage : Option String := none
  Description : Option String := none
  PlanModifiers : List Specschema.Int32PlanModifier := []
  Sensitive : Option Bool := none
  Validators : List Specschema.Int32Validator := []
deriving DecidableEq, Repr

/-- Go `resource.GeneratorInt32Attribute`. The default of every field is its zero value. -/
structure GeneratorInt32Attribute where
  AssociatedExternalType : Option AssocExtType := none
  ComputedOptionalRequired : Convert.ComputedOptionalRequired := {}
  CustomType : Convert.CustomTypePrimitive := {}
  Default : Convert.DefaultInt32 := {}
  DeprecationMessage : Convert.DeprecationMessage := {}
  Description : Convert.Description := {}
  PlanModifiers : Convert.PlanModifiers := {}
  Sensitive : Convert.Sensitive := {}
  Validators : Convert.Validators := {}
deriving DecidableEq, Repr

/-- Go `resource.NewGeneratorInt32Attribute`. -/
def NewGeneratorInt32Attribute (name : String) (a : Option Int32Attribute) :
    GeneratorInt32Attribute × Option GoError :=
  match a with
  | none => ({}, some (GoError.errorf "*resource.Int32Attribute is nil"))
  | some a =>
    let c := NewComputedOptionalRequired a.ComputedOptionalRequired
    let ctp := NewCustomTypePrimitive a.CustomType a.AssociatedExternalType name
    let di := NewDefaultInt32 a.Default
    let dm := NewDeprecationMessage a.DeprecationMessage
    let d := NewDescription a.Description
    let pm := NewPlanModifiers PlanModifierTypeInt32
      (Specschema.Int32PlanModifiers.CustomPlanModifiers a.PlanModifiers)
    let s := NewSensitive a.Sensitive
    let v := NewValidators ValidatorTypeInt32
      (Specschema.Int32Validators.CustomValidators a.Validators)
    ({ AssociatedExternalType := NewAssocExtType a.AssociatedExternalType,
       ComputedOptionalRequired := c,
       CustomType := ctp,
       Default := di,
       DeprecationMessage := dm,
       Description := d,
       PlanModifiers := pm,
       Sensitive := s,
       Validators := v }, none)

/-- Go `GeneratorInt32Attribute.Imports`. -/
def GeneratorInt32Attribute.Imports (g : GeneratorInt32Attribute) : Imports :=
  let imports := NewImports
  let imports := imports.Append g.CustomType.Imports
  let imports := imports.Append g.Default.Imports
  let imports := imports.Append g.PlanModifiers.Imports
  let imports := imports.Append g.Validators.Imports
  let imports :=
    match g.AssociatedExternalType with
    | some _ => imports.Append AssociatedExternalTypeImports
    | none => imports
  imports.Append (AssocExtType.Imports g.AssociatedExternalType)

/-- Go `GeneratorInt32Attribute.Schema`. -/
def GeneratorInt32Attribute.Schema (wide : Char → Bool) (g : GeneratorInt32Attribute)
    (name : FrameworkIdentifier) : String × Option GoError :=
  (Quote wide name ++ ": schema.Int32Attribute\x7b\n"
    ++ g.CustomType.Schema
    ++ g.ComputedOptionalRequired.Schema
    ++ g.Sensitive.Schema
    ++ g.Description.Schema wide
    ++ g.DeprecationMessage.Schema wide
    ++ g.PlanModifiers.Schema
    ++ g.Validators.Schema
    ++ g.Default.Schema
    ++ "\x7d,", none)

/-- Go `GeneratorInt32Attribute.ModelField`. -/
def GeneratorInt32Attribute.ModelField (g : GeneratorInt32Attribute)
    (name : FrameworkIdentifier) : Model.Field × Option GoError :=
  let field : Model.Field :=
    { Name := FrameworkIdentifier.ToPascalCase name,
      TfsdkName := FrameworkIdentifier.ToString name,
      ValueType := Model.Int32ValueType }
  let customValueType := g.CustomType.ValueType
  if customValueType ≠ "" then ({ field with ValueType := customValueType }, none)
  else (field, none)

end Resource

/-! ## Package `internal/provider`: the Int32 attribute -/

namespace Provider

open Generatorschema Convert

/-- Go `provider.Int32Attribute` of the specification library. -/
structure Int32Attribute where
  OptionalRequired : String := ""
  AssociatedExternalType : Option Specschema.AssociatedExternalType := none
  CustomType : Option Specschema.CustomType := none
  DeprecationMessage : Option String := none
  Description : Option String := none
  Sensitive : Option Bool := none
  Validators : List Specschema.Int32Validator := []
deriving DecidableEq, Repr

/-- Go `provider.GeneratorInt32Attribute`. The default of every field is its zero value. -/
structure GeneratorInt32Attribute where
  AssociatedExternalType : Option AssocExtType := none
  OptionalRequired : Convert.OptionalRequired := {}
  CustomType : Convert.CustomTypePrimitive := {}
  DeprecationMessage : Convert.DeprecationMessage := {}
  Description : Convert.Description := {}
  Sensitive : Convert.Sensitive := {}
  Validators : Convert.Validators := {}
deriving DecidableEq, Repr

/-- Go `provider.NewGeneratorInt32Attribute`. -/
def NewGeneratorInt32Attribute (name : String) (a : Option Int32Attribute) :
    GeneratorInt32Attribute × Option GoError :=
  match a with
  | none => ({}, some (GoError.errorf "*provider.Int32Attribute is nil"))
  | some a =>
    let c := NewOptionalRequired a.OptionalRequired
    let ctp := NewCustomTypePrimitive a.CustomType a.AssociatedExternalType name
    let d := NewDescription a.Description
    let dm := NewDeprecationMessage a.DeprecationMessage
    let s := NewSensitive a.Sensitive
    let v := NewValidators ValidatorTypeInt32
      (Specschema.Int32Validators.CustomValidators a.Validators)
    ({ AssociatedExternalType := NewAssocExtType a.AssociatedExternalType,
       OptionalRequired := c,
       CustomType := ctp,
       DeprecationMessage := dm,
       Description := d,
       Sensitive := s,
       Validators := v }, none)

end Provider

/-! ## The interface `schema.GeneratorAttribute` and `Equal` -/

/-- Values of the Go interface `schema.GeneratorAttribute`: the Int32 elements of the two
surfaces, and `otherKind` for an element of any other variant, identified by a tag. -/
inductive GeneratorAttribute where
  | resourceInt32 (g : Resource.GeneratorInt32Attribute)
  | providerInt32 (g : Provider.GeneratorInt32Attribute)
  | otherKind (tag : Nat)
deriving DecidableEq, Repr

namespace Resource

open Generatorschema Convert

/-- Go `resource.GeneratorInt32Attribute.Equal`. -/
def GeneratorInt32Attribute.Equal (g : GeneratorInt32Attribute) (ga : GeneratorAttribute) :
    Bool :=
  match ga with
  | GeneratorAttribute.resourceInt32 h =>
    if !AssocExtType.Equal g.AssociatedExternalType h.AssociatedExternalType then false
    else if !g.ComputedOptionalRequired.Equal h.ComputedOptionalRequired then false
    else if !g.CustomType.Equal h.CustomType then false
    else if !g.Default.Equal h.Default then false
    else if !g.DeprecationMessage.Equal h.DeprecationMessage then false
    else if !g.Description.Equal h.Description then false
    else if !g.PlanModifiers.Equal h.PlanModifiers then false
    else if !g.Sensitive.Equal h.Sensitive then false
    else g.Validators.Equal h.Validators
  | _ => false

end Resource

/-! ## Package `internal/schema`: conversion descriptors, templates, wrapper types

A `[]byte` result of the functions below is a `String`. Every such result is either the
literal nil or the `Bytes()` of a buffer, which is nil as long as nothing was written to
the buffer; so a result is the nil slice exactly when it is the empty text. -/

namespace Generatorschema

/-- Go `schema.NewUnimplementedError`: the distinguishable unimplemented-capability error
around an error. -/
def NewUnimplementedError (err : GoError) : GoError :=
  GoError.unimplemented err

/-- Go `schema.ToFromConversion`: either a built-in default accessor or an association to
delegate to. -/
structure ToFromConversion where
  Default : String := ""
  AssocExtType : Option AssocExtType := none
deriving DecidableEq, Repr

/-- Collaborators of the wrapper types that are not part of the sources at hand: the
template library of Go (`text/template`), the template constants of the package, and the
renderers of the sibling wrapper types. -/
structure Env where
  /-- Error of `template.New("").Parse` on a template source, nil when it parses. -/
  Parse : String → Option GoError
  /-- Bytes written and error of `Execute` of a parsed source on the data `Name`. -/
  Execute : String → String → String × Option GoError
  Int32TypeEqualTemplate : String
  Int32TypeStringTemplate : String
  Int32TypeTypeTemplate : String
  Int32TypeTypableTemplate : String
  Int32TypeValueFromInt32Template : String
  Int32TypeValueFromTerraformTemplate : String
  Int32TypeValueTypeTemplate : String
  Int32ValueEqualTemplate : String
  Int32ValueTypeTemplate : String
  Int32ValueValuableTemplate : String
  Int32ValueValueTemplate : String
  /-- Result of `NewCustomInt64Type(name).Render()`, the wrapper type of the Int64 kind. -/
  CustomInt64TypeRender : String → String × Option GoError
  /-- Result of `NewToFromInt32(name, a).Render()`, the bridging functions of the kind. -/
  ToFromInt32Render : String → AssocExtType → String × Option GoError

/-- Lookup in a Go `map[string]string`; a missing key reads as the empty string. -/
def mapIndex (m : List (String × String)) (key : String) : String :=
  match m with
  | [] => ""
  | (k, v) :: rest => if k = key then v else mapIndex rest key

/-- Common body of the render methods: parse the template, execute it on the capitalized
name, and return the bytes of the buffer, or nil and the error of the step that failed. -/
def renderTemplate (E : Env) (source : String) (name : FrameworkIdentifier) :
    String × Option GoError :=
  match E.Parse source with
  | some err => ("", some err)
  | none =>
    match E.Execute source (FrameworkIdentifier.ToPascalCase name) with
    | (_, some err) => ("", some err)
    | (out, none) => (out, none)

/-- Loop of the `Render` methods over the results of the render functions, in order: the
first error ends the loop with nil bytes, otherwise a newline and the rendered bytes are
written to the buffer. -/
def renderLoop : List (String × Option GoError) → String → String × Option GoError
  | [], buf => (buf, none)
  | (_, some err) :: _, _ => ("", some err)
  | (b, none) :: fs, buf => renderLoop fs (buf ++ "\n" ++ b)

/-- Go `schema.CustomInt32Type`. -/
structure CustomInt32Type where
  Name : FrameworkIdentifier
  templates : List (String × String)
deriving DecidableEq, Repr

/-- Go `schema.NewCustomInt32Type`. -/
def NewCustomInt32Type (E : Env) (name : String) : CustomInt32Type :=
  { Name := name,
    templates :=
      [("equal", E.Int32TypeEqualTemplate),
       ("string", E.Int32TypeStringTemplate),
       ("type", E.Int32TypeTypeTemplate),
       ("typable", E.Int32TypeTypableTemplate),
       ("valueFromInt32", E.Int32TypeValueFromInt32Template),
       ("valueFromTerraform", E.Int32TypeValueFromTerraformTemplate),
       ("valueType", E.Int32TypeValueTypeTemplate)] }

/-- Go `CustomInt32Type.renderEqual`. -/
def CustomInt32Type.renderEqual (E : Env) (c : CustomInt32Type) : String × Option GoError :=
  renderTemplate E (mapIndex c.templates "equal") c.Name

/-- Go `CustomInt32Type.renderString`. -/
def CustomInt32Type.renderString (E : Env) (c : CustomInt32Type) : String × Option GoError :=
  renderTemplate E (mapIndex c.templates "string") c.Name

/-- Go `CustomInt32Type.renderType`. -/
def CustomInt32Type.renderType (E : Env) (c : CustomInt32Type) : String × Option GoError :=
  renderTemplate E (mapIndex c.templates "type") c.Name

/-- Go `CustomInt32Type.renderTypable`. -/
def CustomInt32Type.renderTypable (E : Env) (c : CustomInt32Type) : String × Option GoError :=
  renderTemplate E (mapIndex c.templates "typable") c.Name

/-- Go `CustomInt32Type.renderValueFromInt32`. -/
def CustomInt32Type.renderValueFromInt32 (E : Env) (c : CustomInt32Type) :
    String × Option GoError :=
  renderTemplate E (mapIndex c.templates "valueFromInt32") c.Name

/-- Go `CustomInt32Type.renderValueFromTerraform`. -/
def CustomInt32Type.renderValueFromTerraform (E : Env) (c : CustomInt32Type) :
    String × Option GoError :=
  renderTemplate E (mapIndex c.templates "valueFromTerraform") c.Name

/-- Go `CustomInt32Type.renderValueType`. -/
def CustomInt32Type.renderValueType (E : Env) (c : CustomInt32Type) :
    String × Option GoError :=
  renderTemplate E (mapIndex c.templates "valueType") c.Name

/-- Go `CustomInt32Type.Render`. -/
def CustomInt32Type.Render (E : Env) (c : CustomInt32Type) : String × Option GoError :=
  renderLoop
    [c.renderTypable E, c.renderType E, c.renderEqual E, c.renderString E,
     c.renderValueFromInt32 E, c.renderValueFromTerraform E, c.renderValueType E] ""

/-- Go `schema.CustomInt32Value`. -/
structure CustomInt32Value where
  Name : FrameworkIdentifier
  templates : List (String × String)
deriving DecidableEq, Repr

/-- Go `schema.NewCustomInt32Value`. -/
def NewCustomInt32Value (E : Env) (name : String) : CustomInt32Value :=
  { Name := name,
    templates :=
      [("equal", E.Int32ValueEqualTemplate),
       ("type", E.Int32ValueTypeTemplate),
       ("valuable", E.Int32ValueValuableTemplate),
       ("value", E.Int32ValueValueTemplate)] }

/-- Go `CustomInt32Value.renderEqual`. -/
def CustomInt32Value.renderEqual (E : Env) (c : CustomInt32Value) : String × Option GoError :=
  renderTemplate E (mapIndex c.templates "equal") c.Name

/-- Go `CustomInt32Value.renderType`. -/
def CustomInt32Value.renderType (E : Env) (c : CustomInt32Value) : String × Option GoError :=
  renderTemplate E (mapIndex c.templates "type") c.Name

/-- Go `CustomInt32Value.renderValuable`. -/
def CustomInt32Value.renderValuable (E : Env) (c : CustomInt32Value) :
    String × Option GoError :=
  renderTemplate E (mapIndex c.templates "valuable") c.Name

/-- Go `CustomInt32Value.renderValue`. -/
def CustomInt32Value.renderValue (E : Env) (c : CustomInt32Value) : String × Option GoError :=
  renderTemplate E (mapIndex c.templates "value") c.Name

/-- Go `CustomInt32Value.Render`. -/
def CustomInt32Value.Render (E : Env) (c : CustomInt32Value) : String × Option GoError :=
  renderLoop [c.renderValuable E, c.renderValue E, c.renderEqual E, c.renderType E] ""

end Generatorschema

namespace Resource

open Generatorschema Convert

/-- Go `resource.GeneratorInt32Attribute.CustomTypeAndValue`. -/
def GeneratorInt32Attribute.CustomTypeAndValue (E : Env) (g : GeneratorInt32Attribute)
    (name : String) : String × Option GoError :=
  match g.AssociatedExternalType with
  | none => ("", none)
  | some _ =>
    match (NewCustomInt32Type E name).Render E with
    | (_, some err) => ("", some err)
    | (b, none) =>
      match (NewCustomInt32Value E name).Render E with
      | (_, some err) => ("", some err)
      | (b2, none) => (b ++ b2, none)

/-- Go `resource.GeneratorInt32Attribute.ToFromFunctions`. -/
def GeneratorInt32Attribute.ToFromFunctions (E : Env) (g : GeneratorInt32Attribute)
    (name : String) : String × Option GoError :=
  match g.AssociatedExternalType with
  | none => ("", none)
  | some a =>
    match E.ToFromInt32Render name a with
    | (_, some err) => ("", some err)
    | (b, none) => (b, none)

/-- Go `resource.GeneratorInt32Attribute.To`. -/
def GeneratorInt32Attribute.To (g : GeneratorInt32Attribute) :
    ToFromConversion × Option GoError :=
  match g.AssociatedExternalType with
  | some a => ({ AssocExtType := some a }, none)
  | none => ({ Default := "ValueInt32Pointer" }, none)

/-- Go `resource.GeneratorInt32Attribute.From`. -/
def GeneratorInt32Attribute.From (g : GeneratorInt32Attribute) :
    ToFromConversion × Option GoError :=
  match g.AssociatedExternalType with
  | some a => ({ AssocExtType := some a }, none)
  | none => ({ Default := "Int32PointerValue" }, none)

end Resource

namespace Provider

open Generatorschema Convert

/-- Go `provider.GeneratorInt32Attribute.CustomTypeAndValue`. -/
def GeneratorInt32Attribute.CustomTypeAndValue (E : Env) (g : GeneratorInt32Attribute)
    (name : String) : String × Option GoError :=
  match g.AssociatedExternalType with
  | none => ("", none)
  | some _ =>
    match E.CustomInt64TypeRender name with
    | (_, some err) => ("", some err)
    | (b, none) =>
      match (NewCustomInt32Value E name).Render E with
      | (_, some err) => ("", some err)
      | (b2, none) => (b ++ b2, none)

/-- Go `provider.GeneratorInt32Attribute.ToFromFunctions`. -/
def GeneratorInt32Attribute.ToFromFunctions (E : Env) (g : GeneratorInt32Attribute)
    (name : String) : String × Option GoError :=
  match g.AssociatedExternalType with
  | none => ("", none)
  | some a =>
    match E.ToFromInt32Render name a with
    | (_, some err) => ("", some err)
    | (b, none) => (b, none)

/-- Go `provider.GeneratorInt32Attribute.To`. -/
def GeneratorInt32Attribute.To (g : GeneratorInt32Attribute) :
    ToFromConversion × Option GoError :=
  match g.AssociatedExternalType with
  | some a => ({ AssocExtType := some a }, none)
  | none => ({ Default := "ValueInt32Pointer" }, none)

/-- Go `provider.GeneratorInt32Attribute.From`. -/
def GeneratorInt32Attribute.From (g : GeneratorInt32Attribute) :
    ToFromConversion × Option GoError :=
  match g.AssociatedExternalType with
  | some a => ({ AssocExtType := some a }, none)
  | none => ({ Default := "Int32PointerValue" }, none)

end Provider

/-! ## Package `internal/provider`: the map-of-objects (MapNested) attribute -/

namespace Specschema

/-- Go `schema.MapValidator`: one entry of the validator list of a map node. -/
structure MapValidator where
  Custom : Option CustomValidator := none
deriving DecidableEq, Repr

/-- Go `schema.ObjectValidator`: one entry of the validator list of a nested object. -/
structure ObjectValidator where
  Custom : Option CustomValidator := none
deriving DecidableEq, Repr

/-- Go `MapValidators.CustomValidators`: the custom validators that are set, in order. -/
def MapValidators.CustomValidators (v : List MapValidator) : List (Option CustomValidator) :=
  (v.filterMap (fun x => x.Custom)).map some

/-- Go `ObjectValidators.CustomValidators`: the custom validators that are set, in order. -/
def ObjectValidators.CustomValidators (v : List ObjectValidator) :
    List (Option CustomValidator) :=
  (v.filterMap (fun x => x.Custom)).map some

end Specschema

namespace Generatorschema

/-- A value of the interface `schema.GeneratorAttribute` held in a child mapping, given by
the capabilities a parent element asserts on it: the method of the interface
`schema.CustomTypeAndValue` and the method of the interface `schema.ToFrom`, each present
only when the variant of the child implements the interface. -/
structure Element where
  CustomTypeAndValue : Option (String → String × Option GoError) := none
  ToFromFunctions : Option (String → String × Option GoError) := none

/-- Go `schema.GeneratorAttributes`, a `map[string]GeneratorAttribute`: the bindings of the
mapping, listed in any order, one per key. -/
abbrev GeneratorAttributes := List (String × Element)

/-- Index expression `attributes[k]` of the mapping; nil when the key is not bound. -/
def GeneratorAttributes.index : GeneratorAttributes → String → Option Element
  | [], _ => none
  | (key, v) :: rest, k => if key = k then some v else GeneratorAttributes.index rest k

/-- Keys of the mapping, in the order the bindings are listed. -/
def GeneratorAttributes.keys (g : GeneratorAttributes) : List String :=
  g.map (fun kv => kv.1)

/-- Order of Go strings on character lists: lexicographic on the code points, which is
the order of the bytes of their UTF-8 form. -/
def leChars : List Char → List Char → Bool
  | [], _ => true
  | _ :: _, [] => false
  | a :: as, b :: bs =>
    if a.toNat < b.toNat then true
    else if b.toNat < a.toNat then false
    else leChars as bs

/-- Order `<=` of Go strings. -/
def leString (a b : String) : Bool :=
  leChars a.data b.data

/-- Go `sort.Strings`: the strings in ascending order. -/
def sortStrings (l : List String) : List String :=
  l.insertionSort (fun a b => leString a b = true)

/-- Modelled from the spec: `GeneratorAttributes.SortedKeys` is not among the sources at
hand. Spec 4.2: children are taken in a stable, sorted-by-name order, independent of the
iteration order of the mapping; the keys of the mapping in ascending order. -/
def GeneratorAttributes.SortedKeys (g : GeneratorAttributes) : List String :=
  sortStrings g.keys

end Generatorschema

namespace Convert

open Generatorschema

/-- Go constant `convert.ValidatorTypeMap`. -/
def ValidatorTypeMap : String :=
  "validator.Map"

/-- Go constant `convert.ValidatorTypeObject`. -/
def ValidatorTypeObject : String :=
  "validator.Object"

/-- Go `convert.CustomTypeNestedCollection`: the custom-type descriptor of a collection of
nested objects. -/
structure CustomTypeNestedCollection where
  customType : Option Specschema.CustomType := none
deriving DecidableEq, Repr

/-- Go `convert.NewCustomTypeNestedCollection`. -/
def NewCustomTypeNestedCollection (c : Option Specschema.CustomType) :
    CustomTypeNestedCollection :=
  { customType := c }

/-- Modelled from the spec: `CustomTypeNestedCollection.Schema`, the custom-type override
fragment, the type expression of the custom type when one is set. -/
def CustomTypeNestedCollection.Schema (c : CustomTypeNestedCollection) : String :=
  match c.customType with
  | some ct => "CustomType: " ++ ct.Type_ ++ ",\n"
  | none => ""

/-- Go `convert.NestedAttributeObject`: the nested object of a collection, built from the
children, the custom type, the object validators and the name of the element. -/
structure NestedAttributeObject where
  attributes : GeneratorAttributes := []
  customType : Option Specschema.CustomType := none
  validators : Validators := {}
  name : String := ""

/-- Go `convert.NewNestedAttributeObject`. -/
def NewNestedAttributeObject (a : GeneratorAttributes) (c : Option Specschema.CustomType)
    (v : Validators) (name : String) : NestedAttributeObject :=
  { attributes := a, customType := c, validators := v, name := name }

end Convert

namespace Generatorschema

/-- Collaborators of the nested kinds that are not part of the sources at hand: the
aggregations over a child mapping, the renderers of the nested-object wrapper types and
of the composite bridging function, and the schema fragment of a nested object. Each
answers with a value and an error, like the Go function it stands for. -/
structure NestedEnv where
  /-- Result of `GeneratorAttributes.AttrValues`. -/
  AttrValues : GeneratorAttributes → List (String × String) × Option GoError
  /-- Result of `GeneratorAttributes.AttributeTypes`. -/
  AttributeTypes : GeneratorAttributes → List (String × String) × Option GoError
  /-- Result of `GeneratorAttributes.AttrTypes`. -/
  AttrTypes : GeneratorAttributes → List (String × String) × Option GoError
  /-- Result of `GeneratorAttributes.CollectionTypes`. -/
  CollectionTypes :
    GeneratorAttributes → List (String × List (String × String)) × Option GoError
  /-- Result of `GeneratorAttributes.ToFuncs`, the accessor descriptors of the children. -/
  ToFuncs : GeneratorAttributes → List (String × ToFromConversion) × Option GoError
  /-- Result of `GeneratorAttributes.FromFuncs`. -/
  FromFuncs : GeneratorAttributes → List (String × ToFromConversion) × Option GoError
  /-- Result of `NewCustomNestedObjectType(name, attrValues).Render()`. -/
  CustomNestedObjectTypeRender : String → List (String × String) → String × Option GoError
  /-- Result of `NewCustomNestedObjectValue(name, attributeTypes, attrTypes, attrValues,
  collectionTypes).Render()`. -/
  CustomNestedObjectValueRender :
    String → List (String × String) → List (String × String) → List (String × String)
      → List (String × List (String × String)) → String × Option GoError
  /-- Result of `NewToFromNestedObject(name, a, toFuncs, fromFuncs).Render()`. -/
  ToFromNestedObjectRender :
    String → AssocExtType → List (String × ToFromConversion)
      → List (String × ToFromConversion) → String × Option GoError
  /-- Result of `convert.NestedAttributeObject.Schema`. -/
  NestedAttributeObjectSchema : Convert.NestedAttributeObject → String × Option GoError

end Generatorschema

namespace Provider

open Generatorschema Convert

/-- Go `provider.NestedAttributeObject` of the specification library; `α` is the type of
the child nodes (`provider.Attributes`). -/
structure NestedAttributeObject (α : Type) where
  Attributes : α
  AssociatedExternalType : Option Specschema.AssociatedExternalType := none
  CustomType : Option Specschema.CustomType := none
  Validators : List Specschema.ObjectValidator := []

/-- Go `provider.MapNestedAttribute` of the specification library. -/
structure MapNestedAttribute (α : Type) where
  NestedObject : NestedAttributeObject α
  OptionalRequired : String := ""
  CustomType : Option Specschema.CustomType := none
  DeprecationMessage : Option String := none
  Description : Option String := none
  Sensitive : Option Bool := none
  Validators : List Specschema.MapValidator := []

/-- Go `provider.GeneratorNestedAttributeObject`. -/
structure GeneratorNestedAttributeObject where
  AssociatedExternalType : Option AssocExtType := none
  Attributes : GeneratorAttributes := []
  CustomType : Option Specschema.CustomType := none
  Validators : List Specschema.ObjectValidator := []

/-- Go `provider.GeneratorMapNestedAttribute`. The default of every field is its zero
value. -/
structure GeneratorMapNestedAttribute where
  OptionalRequired : Convert.OptionalRequired := {}
  CustomType : Convert.CustomTypeNestedCollection := {}
  DeprecationMessage : Convert.DeprecationMessage := {}
  Description : Convert.Description := {}
  NestedObject : GeneratorNestedAttributeObject := {}
  NestedAttributeObject : Convert.NestedAttributeObject := {}
  Sensitive : Convert.Sensitive := {}
  Validators : Convert.Validators := {}

/-- Go `provider.NewGeneratorMapNestedAttribute`; `NewAttributes` is the constructor of
the child mapping of the provider surface. -/
def NewGeneratorMapNestedAttribute {α : Type}
    (NewAttributes : α → GeneratorAttributes × Option GoError) (name : String)
    (a : Option (MapNestedAttribute α)) : GeneratorMapNestedAttribute × Option GoError :=
  match a with
  | none => ({}, some (GoError.errorf "*provider.MapNestedAttribute is nil"))
  | some a =>
    match NewAttributes a.NestedObject.Attributes with
    | (_, some err) => ({}, some err)
    | (attributes, none) =>
      let c := NewOptionalRequired a.OptionalRequired
      let ct := NewCustomTypeNestedCollection a.CustomType
      let d := NewDescription a.Description
      let dm := NewDeprecationMessage a.DeprecationMessage
      let vo := NewValidators ValidatorTypeObject
        (Specschema.ObjectValidators.CustomValidators a.NestedObject.Validators)
      let nat := NewNestedAttributeObject attributes a.NestedObject.CustomType vo name
      let s := NewSensitive a.Sensitive
      let vm := NewValidators ValidatorTypeMap
        (Specschema.MapValidators.CustomValidators a.Validators)
      ({ OptionalRequired := c,
         CustomType := ct,
         DeprecationMessage := dm,
         Description := d,
         NestedObject :=
           { AssociatedExternalType := NewAssocExtType a.NestedObject.AssociatedExternalType,
             Attributes := attributes,
             CustomType := a.NestedObject.CustomType,
             Validators := a.NestedObject.Validators },
         NestedAttributeObject := nat,
         Sensitive := s,
         Validators := vm }, none)

/-- Go `provider.GeneratorMapNestedAttribute.Schema`. -/
def GeneratorMapNestedAttribute.Schema (wide : Char → Bool) (N : NestedEnv)
    (g : GeneratorMapNestedAttribute) (name : FrameworkIdentifier) : String × Option GoError :=
  match N.NestedAttributeObjectSchema g.NestedAttributeObject with
  | (_, some err) => ("", some err)
  | (nestedObjectSchema, none) =>
    (Quote wide name ++ ": schema.MapNestedAttribute\x7b\n"
      ++ nestedObjectSchema
      ++ g.CustomType.Schema
      ++ g.OptionalRequired.Schema
      ++ g.Sensitive.Schema
      ++ g.Description.Schema wide
      ++ g.DeprecationMessage.Schema wide
      ++ g.Validators.Schema
      ++ "\x7d,", none)

/-- Loop of `CustomTypeAndValue` over the sorted keys: every child that implements
`schema.CustomTypeAndValue` is asked for its text under its key; the first error ends the
loop with nil bytes. -/
def customTypeAndValueLoop (attributes : GeneratorAttributes) :
    List String → String → String × Option GoError
  | [], buf => (buf, none)
  | k :: ks, buf =>
    match (attributes.index k).bind (fun c => c.CustomTypeAndValue) with
    | some f =>
      match f k with
      | (_, some err) => ("", some err)
      | (b, none) => customTypeAndValueLoop attributes ks (buf ++ b)
    | none => customTypeAndValueLoop attributes ks buf

/-- Go `provider.GeneratorMapNestedAttribute.CustomTypeAndValue`. -/
def GeneratorMapNestedAttribute.CustomTypeAndValue (N : NestedEnv)
    (g : GeneratorMapNestedAttribute) (name : String) : String × Option GoError :=
  match N.AttrValues g.NestedObject.Attributes with
  | (_, some err) => ("", some err)
  | (attributeAttrValues, none) =>
    match N.CustomNestedObjectTypeRender name attributeAttrValues with
    | (_, some err) => ("", some err)
    | (b, none) =>
      match N.AttributeTypes g.NestedObject.Attributes with
      | (_, some err) => ("", some err)
      | (attributeTypes, none) =>
        match N.AttrTypes g.NestedObject.Attributes with
        | (_, some err) => ("", some err)
        | (attributeAttrTypes, none) =>
          match N.CollectionTypes g.NestedObject.Attributes with
          | (_, some err) => ("", some err)
          | (attributeCollectionTypes, none) =>
            match N.CustomNestedObjectValueRender name attributeTypes attributeAttrTypes
                attributeAttrValues attributeCollectionTypes with
            | (_, some err) => ("", some err)
            | (b2, none) =>
              customTypeAndValueLoop g.NestedObject.Attributes
                g.NestedObject.Attributes.SortedKeys (b ++ b2)

/-- Loop of `ToFromFunctions` over the sorted keys: every child that implements
`schema.ToFrom` is asked for its bridging functions under its key. -/
def toFromFunctionsLoop (attributes : GeneratorAttributes) :
    List String → String → String × Option GoError
  | [], buf => (buf, none)
  | k :: ks, buf =>
    match (attributes.index k).bind (fun c => c.ToFromFunctions) with
    | some f =>
      match f k with
      | (_, some err) => ("", some err)
      | (b, none) => toFromFunctionsLoop attributes ks (buf ++ b)
    | none => toFromFunctionsLoop attributes ks buf

/-- Go `provider.GeneratorMapNestedAttribute.ToFromFunctions`. -/
def GeneratorMapNestedAttribute.ToFromFunctions (N : NestedEnv)
    (g : GeneratorMapNestedAttribute) (name : String) : String × Option GoError :=
  match g.NestedObject.AssociatedExternalType with
  | none => ("", none)
  | some a =>
    match N.ToFuncs g.NestedObject.Attributes with
    | (_, some err) => ("", some err)
    | (toFuncs, none) =>
      match N.FromFuncs g.NestedObject.Attributes with
      | (_, some err) => ("", some err)
      | (fromFuncs, none) =>
        match N.ToFromNestedObjectRender name a toFuncs fromFuncs with
        | (_, some err) => ("", some err)
        | (b, none) =>
          toFromFunctionsLoop g.NestedObject.Attributes
            g.NestedObject.Attributes.SortedKeys b

/-- Go `provider.GeneratorMapNestedAttribute.To`. -/
def GeneratorMapNestedAttribute.To (_g : GeneratorMapNestedAttribute) :
    ToFromConversion × Option GoError :=
  ({}, some (NewUnimplementedError (errorsNew "map nested type is not yet implemented")))

/-- Go `provider.GeneratorMapNestedAttribute.From`. -/
def GeneratorMapNestedAttribute.From (_g : GeneratorMapNestedAttribute) :
    ToFromConversion × Option GoError :=
  ({}, some (NewUnimplementedError (errorsNew "map nested type is not yet implemented")))

end Provider

/-! ## Package `internal/datasource`: schema assembly (`convert.go`)

The node types of the kinds belong to the specification library and the constructors of
the kinds are not part of the sources at hand; the assembly only tests the selectors of
a node for nil and hands the node of the first populated one to its constructor. The
type `ν` stands for the nodes of the kinds, `γ` for the generator elements of attributes
and `β` for those of blocks. A Go value of interface type is an `Option`: nil or a
value that holds an element. A Go map with string keys is the list of its bindings, one
per key; the nil map and the empty map both have no binding. -/

namespace Datasource

/-- Assignment `m[k] = v` on a Go map: the binding of `k` is replaced, or added. -/
def mapAssign {β : Type} : List (String × β) → String → β → List (String × β)
  | [], k, v => [(k, v)]
  | (k2, v2) :: rest, k, v =>
    if k2 = k then (k, v) :: rest else (k2, v2) :: mapAssign rest k v

/-- Index expression `m[k]` on a Go map, with the presence of the key. -/
def mapLookup {β : Type} : List (String × β) → String → Option β
  | [], _ => none
  | (k2, v2) :: rest, k => if k2 = k then some v2 else mapLookup rest k

/-- Go `datasource.Attribute` of the specification library: a name and the fourteen kind
selectors. -/
structure Attribute (ν : Type) where
  Name : String
  Bool : Option ν := none
  Float64 : Option ν := none
  Int32 : Option ν := none
  Int64 : Option ν := none
  List : Option ν := none
  ListNested : Option ν := none
  Map : Option ν := none
  MapNested : Option ν := none
  Number : Option ν := none
  Object : Option ν := none
  Set : Option ν := none
  SetNested : Option ν := none
  SingleNested : Option ν := none
  String : Option ν := none

/-- Go `datasource.Block` of the specification library: a name and the three kind
selectors of blocks. -/
structure Block (ν : Type) where
  Name : String
  ListNested : Option ν := none
  SetNested : Option ν := none
  SingleNested : Option ν := none

/-- Go `datasource.Schema` of the specification library. -/
structure Schema (ν : Type) where
  Attributes : List (Attribute ν) := []
  Blocks : List (Block ν) := []
  Description : Option String := none
  MarkdownDescription : Option String := none
  DeprecationMessage : Option String := none

/-- Go `datasource.DataSource` of the specification library. -/
structure DataSource (ν : Type) where
  Name : String
  Schema : Schema ν := {}

/-- Go `spec.Specification`, as far as the data-source surface reads it. -/
structure Specification (ν : Type) where
  DataSources : List (DataSource ν) := []

/-- Collaborators of the assembly that are not part of the sources at hand: the
constructors of the fourteen attribute kinds and of the three block kinds, each answering
an element and an error, and the rendering of a node by the verb `%+v` of `fmt`. -/
structure Kinds (ν γ β : Type) where
  NewGeneratorBoolAttribute : String → ν → γ × Option GoError
  NewGeneratorFloat64Attribute : String → ν → γ × Option GoError
  NewGeneratorInt32Attribute : String → ν → γ × Option GoError
  NewGeneratorInt64Attribute : String → ν → γ × Option GoError
  NewGeneratorListAttribute : String → ν → γ × Option GoError
  NewGeneratorListNestedAttribute : String → ν → γ × Option GoError
  NewGeneratorMapAttribute : String → ν → γ × Option GoError
  NewGeneratorMapNestedAttribute : String → ν → γ × Option GoError
  NewGeneratorNumberAttribute : String → ν → γ × Option GoError
  NewGeneratorObjectAttribute : String → ν → γ × Option GoError
  NewGeneratorSetAttribute : String → ν → γ × Option GoError
  NewGeneratorSetNestedAttribute : String → ν → γ × Option GoError
  NewGeneratorSingleNestedAttribute : String → ν → γ × Option GoError
  NewGeneratorStringAttribute : String → ν → γ × Option GoError
  NewGeneratorListNestedBlock : String → ν → β × Option GoError
  NewGeneratorSetNestedBlock : String → ν → β × Option GoError
  NewGeneratorSingleNestedBlock : String → ν → β × Option GoError
  /-- Text of an attribute node under the verb `%+v`. -/
  formatAttribute : Attribute ν → String
  /-- Text of a block node under the verb `%+v`. -/
  formatBlock : Block ν → String

/-- Result of a constructor as the pair of an interface value and an error: the element
it returns is held by the interface value, also next to an error. -/
def asInterface {γ : Type} (r : γ × Option GoError) : Option γ × Option GoError :=
  (some r.1, r.2)

/-- Go `datasource.NewAttribute`. -/
def NewAttribute {ν γ β : Type} (K : Kinds ν γ β) (a : Attribute ν) :
    Option γ × Option GoError :=
  match a.Bool with
  | some n => asInterface (K.NewGeneratorBoolAttribute a.Name n)
  | none =>
  match a.Float64 with
  | some n => asInterface (K.NewGeneratorFloat64Attribute a.Name n)
  | none =>
  match a.Int32 with
  | some n => asInterface (K.NewGeneratorInt32Attribute a.Name n)
  | none =>
  match a.Int64 with
  | some n => asInterface (K.NewGeneratorInt64Attribute a.Name n)
  | none =>
  match a.List with
  | some n => asInterface (K.NewGeneratorListAttribute a.Name n)
  | none =>
  match a.ListNested with
  | some n => asInterface (K.NewGeneratorListNestedAttribute a.Name n)
  | none =>
  match a.Map with
  | some n => asInterface (K.NewGeneratorMapAttribute a.Name n)
  | none =>
  match a.MapNested with
  | some n => asInterface (K.NewGeneratorMapNestedAttribute a.Name n)
  | none =>
  match a.Number with
  | some n => asInterface (K.NewGeneratorNumberAttribute a.Name n)
  | none =>
  match a.Object with
  | some n => asInterface (K.NewGeneratorObjectAttribute a.Name n)
  | none =>
  match a.Set with
  | some n => asInterface (K.NewGeneratorSetAttribute a.Name n)
  | none =>
  match a.SetNested with
  | some n => asInterface (K.NewGeneratorSetNestedAttribute a.Name n)
  | none =>
  match a.SingleNested with
  | some n => asInterface (K.NewGeneratorSingleNestedAttribute a.Name n)
  | none =>
  match a.String with
  | some n => asInterface (K.NewGeneratorStringAttribute a.Name n)
  | none => (none, some (GoError.errorf ("attribute type not defined: " ++ K.formatAttribute a)))

/-- Go `datasource.NewBlock`. -/
def NewBlock {ν γ β : Type} (K : Kinds ν γ β) (b : Block ν) : Option β × Option GoError :=
  match b.ListNested with
  | some n => asInterface (K.NewGeneratorListNestedBlock b.Name n)
  | none =>
  match b.SetNested with
  | some n => asInterface (K.NewGeneratorSetNestedBlock b.Name n)
  | none =>
  match b.SingleNested with
  | some n => asInterface (K.NewGeneratorSingleNestedBlock b.Name n)
  | none => (none, some (GoError.errorf ("block type not defined: " ++ K.formatBlock b)))

/-- Loop over the attribute nodes, shared by `NewSchema` and `NewAttributes`: every node
is constructed in list order and bound under its name; the first error ends the loop. -/
def attributesLoop {ν γ β : Type} (K : Kinds ν γ β) :
    List (Attribute ν) → List (String × Option γ) → List (String × Option γ) × Option GoError
  | [], m => (m, none)
  | v :: vs, m =>
    match NewAttribute K v with
    | (_, some err) => (m, some err)
    | (a, none) => attributesLoop K vs (mapAssign m v.Name a)

/-- Loop over the block nodes, shared by `NewSchema` and `NewBlocks`. -/
def blocksLoop {ν γ β : Type} (K : Kinds ν γ β) :
    List (Block ν) → List (String × Option β) → List (String × Option β) × Option GoError
  | [], m => (m, none)
  | v :: vs, m =>
    match NewBlock K v with
    | (_, some err) => (m, some err)
    | (b, none) => blocksLoop K vs (mapAssign m v.Name b)

/-- Go `datasource.NewAttributes`: on an error the empty mapping is returned. -/
def NewAttributes {ν γ β : Type} (K : Kinds ν γ β) (a : List (Attribute ν)) :
    List (String × Option γ) × Option GoError :=
  match attributesLoop K a [] with
  | (_, some err) => ([], some err)
  | (attributes, none) => (attributes, none)

/-- Go `datasource.NewBlocks`: on an error the empty mapping is returned. -/
def NewBlocks {ν γ β : Type} (K : Kinds ν γ β) (b : List (Block ν)) :
    List (String × Option β) × Option GoError :=
  match blocksLoop K b [] with
  | (_, some err) => ([], some err)
  | (blocks, none) => (blocks, none)

/-- Go `schema.GeneratorSchema`. The default of every field is its zero value. -/
structure GeneratorSchema (γ β : Type) where
  Attributes : List (String × Option γ) := []
  Blocks : List (String × Option β) := []
  Description : Option String := none
  MarkdownDescription : Option String := none
  DeprecationMessage : Option String := none

/-- Go `datasource.NewSchema`. The variable `s` is returned as it stands at the place of
the error: untouched when an attribute fails, with the attribute mapping assigned when a
block fails. -/
def NewSchema {ν γ β : Type} (K : Kinds ν γ β) (d : DataSource ν) :
    GeneratorSchema γ β × Option GoError :=
  match attributesLoop K d.Schema.Attributes [] with
  | (_, some err) => ({}, some err)
  | (attributes, none) =>
    match blocksLoop K d.Schema.Blocks [] with
    | (_, some err) => ({ Attributes := attributes }, some err)
    | (blocks, none) =>
      ({ Attributes := attributes,
         Blocks := blocks,
         Description := d.Schema.Description,
         MarkdownDescription := d.Schema.MarkdownDescription,
         DeprecationMessage := d.Schema.DeprecationMessage }, none)

/-- Loop of `NewSchemas` over the data sources, in list order. -/
def schemasLoop {ν γ β : Type} (K : Kinds ν γ β) :
    List (DataSource ν) → List (String × GeneratorSchema γ β)
      → List (String × GeneratorSchema γ β) × Option GoError
  | [], m => (m, none)
  | v :: vs, m =>
    match NewSchema K v with
    | (_, some err) => ([], some err)
    | (s, none) => schemasLoop K vs (mapAssign m v.Name s)

/-- Go `datasource.NewSchemas`. -/
def NewSchemas {ν γ β : Type} (K : Kinds ν γ β) (spec : Specification ν) :
    List (String × GeneratorSchema γ β) × Option GoError :=
  schemasLoop K spec.DataSources []

end Datasource

/-! ## Notions used to state the properties -/

/-- Ordered-set reading of a sequence of import declarations (spec 4.3): the first
declaration of every path is kept, at its place, and the later ones are dropped. -/
def dedupByPath : List Code.Import → List Code.Import
  | [] => []
  | x :: xs => x :: (dedupByPath xs).filter (fun e => !decide (e.Path = x.Path))

/-- Text `a` and then text `b` occur in `t`, in this order and without overlap. -/
def OccursInOrder (a b t : String) : Prop :=
  ∃ pre mid post : String, t = pre ++ a ++ mid ++ b ++ post

/-- Text `p` starts the text `t`. -/
def startsWith : List Char → List Char → Bool
  | [], _ => true
  | _ :: _, [] => false
  | p :: ps, c :: cs => decide (p = c) && startsWith ps cs

/-- Text `b` occurs somewhere in `t`. -/
def occursIn (b : List Char) : List Char → Bool
  | [] => startsWith b []
  | c :: cs => startsWith b (c :: cs) || occursIn b cs

/-- Decision procedure for `OccursInOrder` on character lists. -/
def occursInOrderB (a b : List Char) : List Char → Bool
  | [] => startsWith a [] && occursIn b ([].drop a.length)
  | c :: cs =>
    (startsWith a (c :: cs) && occursIn b ((c :: cs).drop a.length)) || occursInOrderB a b cs

/-- Every text of the list on a line of its own, followed by a comma, in list order. -/
def commaLines : List String → String
  | [] => ""
  | e :: es => e ++ ",\n" ++ commaLines es

/-- Concatenation of texts, in list order. -/
def concatTexts : List String → String
  | [] => ""
  | t :: ts => t ++ concatTexts ts

/-- Text that the child bound to `k` contributes to the wrapper text of its parent: its
`CustomTypeAndValue(k)` when it supports the operation, nothing otherwise. -/
def childCustomTypeAndValue (attributes : Generatorschema.GeneratorAttributes) (k : String) :
    String :=
  match (attributes.index k).bind (fun c => c.CustomTypeAndValue) with
  | some f => (f k).1
  | none => ""

/-- Text that the child bound to `k` contributes to the bridging functions of its parent:
its `ToFromFunctions(k)` when it supports the operation, nothing otherwise. -/
def childToFromFunctions (attributes : Generatorschema.GeneratorAttributes) (k : String) :
    String :=
  match (attributes.index k).bind (fun c => c.ToFromFunctions) with
  | some f => (f k).1
  | none => ""

/-- A sample of the template collaborators: every template parses and executes to its
source followed by the name and a newline, the sources name the template, and the sibling
renderers succeed. -/
def sampleEnv : Generatorschema.Env :=
  { Parse := fun _ => none,
    Execute := fun source name => (source ++ name ++ "\n", none),
    Int32TypeEqualTemplate := "int32 type equal ",
    Int32TypeStringTemplate := "int32 type string ",
    Int32TypeTypeTemplate := "int32 type type ",
    Int32TypeTypableTemplate := "int32 type typable ",
    Int32TypeValueFromInt32Template := "int32 type valueFromInt32 ",
    Int32TypeValueFromTerraformTemplate := "int32 type valueFromTerraform ",
    Int32TypeValueTypeTemplate := "int32 type valueType ",
    Int32ValueEqualTemplate := "int32 value equal ",
    Int32ValueTypeTemplate := "int32 value type ",
    Int32ValueValuableTemplate := "int32 value valuable ",
    Int32ValueValueTemplate := "int32 value value ",
    CustomInt64TypeRender := fun name =>
      ("\nint64 type of " ++ Generatorschema.FrameworkIdentifier.ToPascalCase name ++ "\n", none),
    ToFromInt32Render := fun name a =>
      ("\nint32 bridge of " ++ Generatorschema.FrameworkIdentifier.ToPascalCase name ++ " to "
        ++ a.AssociatedExternalType.Type_ ++ "\n", none) }

/-- A sample of the collaborators of the nested kinds: the aggregations list the sorted
keys of the mapping, and every renderer succeeds with a line naming what it renders. -/
def sampleNestedEnv : Generatorschema.NestedEnv :=
  { AttrValues := fun g => (g.SortedKeys.map (fun k => (k, "value")), none),
    AttributeTypes := fun g => (g.SortedKeys.map (fun k => (k, "type")), none),
    AttrTypes := fun g => (g.SortedKeys.map (fun k => (k, "attr")), none),
    CollectionTypes := fun g => (g.SortedKeys.map (fun k => (k, [])), none),
    ToFuncs := fun g => (g.SortedKeys.map (fun k => (k, {})), none),
    FromFuncs := fun g => (g.SortedKeys.map (fun k => (k, {})), none),
    CustomNestedObjectTypeRender := fun name values =>
      ("\nobject type of " ++ name ++ " over " ++ concatTexts (values.map (fun kv => kv.1))
        ++ "\n", none),
    CustomNestedObjectValueRender := fun name types _ _ _ =>
      ("\nobject value of " ++ name ++ " over " ++ concatTexts (types.map (fun kv => kv.1))
        ++ "\n", none),
    ToFromNestedObjectRender := fun name a toFuncs _ =>
      ("\nobject bridge of " ++ name ++ " to " ++ a.AssociatedExternalType.Type_ ++ " over "
        ++ concatTexts (toFuncs.map (fun kv => kv.1)) ++ "\n", none),
    NestedAttributeObjectSchema := fun o =>
      ("NestedObject: nested object of " ++ o.name ++ ",\n", none) }

/-- A provider Int32 element as a value of the interface held in a child mapping: the
variant implements both optional interfaces. -/
def int32Element (E : Generatorschema.Env) (g : Provider.GeneratorInt32Attribute) :
    Generatorschema.Element :=
  { CustomTypeAndValue := some (fun name => g.CustomTypeAndValue E name),
    ToFromFunctions := some (fun name => g.ToFromFunctions E name) }

/-- A sample constructor of a child mapping, over child nodes that are a name and an
optional Int32 node: like `NewAttributes` of the data-source surface it constructs every
child in turn, binds it under its name, and fails with the error of the first child that
has no kind. -/
def sampleNewAttributes :
    List (String × Option Provider.Int32Attribute)
      → Generatorschema.GeneratorAttributes × Option GoError
  | [] => ([], none)
  | (name, none) :: _ => ([], some (GoError.errorf ("attribute type not defined: " ++ name)))
  | (name, some a) :: rest =>
    match sampleNewAttributes rest with
    | (_, some err) => ([], some err)
    | (attributes, none) =>
      ((name, int32Element sampleEnv (Provider.NewGeneratorInt32Attribute name (some a)).1)
        :: attributes, none)

/-- A sample association to the external type `t`. -/
def sampleAssociation (t : String) : Generatorschema.AssocExtType :=
  { AssociatedExternalType := { Type_ := t } }

/-- A sample child: a provider Int32 element with an association to `*api.B`. -/
def sampleChildWith : Generatorschema.Element :=
  int32Element sampleEnv { AssociatedExternalType := some (sampleAssociation "*api.B") }

/-- A sample child: a provider Int32 element without association. -/
def sampleChildWithout : Generatorschema.Element :=
  int32Element sampleEnv {}

/-- Error of the first render function that fails, in list order; nil when all render. -/
def firstError : List (String × Option GoError) → Option GoError
  | [] => none
  | (_, some err) :: _ => some err
  | (_, none) :: fs => firstError fs

/-- A newline followed by the rendered text, for every render function, in list order. -/
def newlineEach : List (String × Option GoError) → String
  | [] => ""
  | (b, _) :: fs => "\n" ++ b ++ newlineEach fs

/-- The sample of the template collaborators, but with an `equal` template of the wrapper
type that does not parse. -/
def sampleFailingEnv : Generatorschema.Env :=
  { sampleEnv with
    Parse := fun source =>
      if source = "int32 type equal " then some (GoError.errorf "template: unexpected EOF")
      else none }

/-- The custom default of the import test `default-custom-import`: a declaration and an
empty schema definition. -/
def sampleCustomDefaultNoText : Specschema.CustomDefault :=
  { Imports := [{ Path := "github.com/myproject/mydefaults/default" }] }

/-- The custom default of the constructor test `default`: a declaration and a schema
definition. -/
def sampleCustomDefault : Specschema.CustomDefault :=
  { Imports := [{ Path := "github.com/.../my_default" }],
    SchemaDefinition := "my_default.Default()" }

/-- A sample of the constructors of the kinds, over nodes without content: every
constructor succeeds with a text that names the kind and the element, and a node is
rendered by its name. -/
def sampleKinds : Datasource.Kinds Unit String String :=
  { NewGeneratorBoolAttribute := fun name _ => ("bool attribute " ++ name, none),
    NewGeneratorFloat64Attribute := fun name _ => ("float64 attribute " ++ name, none),
    NewGeneratorInt32Attribute := fun name _ => ("int32 attribute " ++ name, none),
    NewGeneratorInt64Attribute := fun name _ => ("int64 attribute " ++ name, none),
    NewGeneratorListAttribute := fun name _ => ("list attribute " ++ name, none),
    NewGeneratorListNestedAttribute := fun name _ => ("list nested attribute " ++ name, none),
    NewGeneratorMapAttribute := fun name _ => ("map attribute " ++ name, none),
    NewGeneratorMapNestedAttribute := fun name _ => ("map nested attribute " ++ name, none),
    NewGeneratorNumberAttribute := fun name _ => ("number attribute " ++ name, none),
    NewGeneratorObjectAttribute := fun name _ => ("object attribute " ++ name, none),
    NewGeneratorSetAttribute := fun name _ => ("set attribute " ++ name, none),
    NewGeneratorSetNestedAttribute := fun name _ => ("set nested attribute " ++ name, none),
    NewGeneratorSingleNestedAttribute := fun name _ =>
      ("single nested attribute " ++ name, none),
    NewGeneratorStringAttribute := fun name _ => ("string attribute " ++ name, none),
    NewGeneratorListNestedBlock := fun name _ => ("list nested block " ++ name, none),
    NewGeneratorSetNestedBlock := fun name _ => ("set nested block " ++ name, none),
    NewGeneratorSingleNestedBlock := fun name _ => ("single nested block " ++ name, none),
    formatAttribute := fun a => a.Name,
    formatBlock := fun b => b.Name }

/-- The last data source of a list that carries the name `k`. -/
def lastWithName {ν : Type} : List (Datasource.DataSource ν) → String
    → Option (Datasource.DataSource ν)
  | [], _ => none
  | v :: vs, k =>
    match lastWithName vs k with
    | some w => some w
    | none => if v.Name = k then some v else none

/-- Keys of a Go map, in the order its bindings are listed. -/
def mapKeys {β : Type} (m : List (String × β)) : List String :=
  m.map (fun kv => kv.1)

/-! ## Properties: construction and model field -/

section Construction

open Generatorschema Convert

/-- C1. Construction from a nil specification node fails on both surfaces: the result is the
zero-value element (every field at its zero value) together with an error, whose message
is `*resource.Int32Attribute is nil` for the resource constructor and
`*provider.Int32Attribute is nil` for the provider constructor, whatever the name. -/
theorem nil_input_is_error (name : String) :
    Resource.NewGeneratorInt32Attribute name none =
        ({ AssociatedExternalType := none,
           ComputedOptionalRequired := { computedOptionalRequired := "" },
           CustomType := { associatedExternalType := none, customType := none, name := "" },
           Default := { int32Default := none },
           DeprecationMessage := { deprecationMessage := none },
           Description := { description := none },
           PlanModifiers := { planModifierType := "", custom := [] },
           Sensitive := { sensitive := none },
           Validators := { validatorType := "", custom := [] } },
         some (GoError.errorf "*resource.Int32Attribute is nil"))
      ∧ (Resource.NewGeneratorInt32Attribute name none).2.map GoError.Error
          = some "*resource.Int32Attribute is nil"
      ∧ Provider.NewGeneratorInt32Attribute name none =
        ({ AssociatedExternalType := none,
           OptionalRequired := { optionalRequired := "" },
           CustomType := { associatedExternalType := none, customType := none, name := "" },
           DeprecationMessage := { deprecationMessage := none },
           Description := { description := none },
           Sensitive := { sensitive := none },
           Validators := { validatorType := "", custom := [] } },
         some (GoError.errorf "*provider.Int32Attribute is nil"))
      ∧ (Provider.NewGeneratorInt32Attribute name none).2.map GoError.Error
          = some "*provider.Int32Attribute is nil" :=
  ⟨rfl, rfl, rfl, rfl⟩

/-- C2. Construction from a non-nil resource node succeeds, and the model field of the
returned element, for every identifier, has no error, the capitalized form of the
identifier as its name and the identifier itself as its serialization key. -/
theorem model_field_name (name : String) (a : Resource.Int32Attribute)
    (n : FrameworkIdentifier) :
    (Resource.NewGeneratorInt32Attribute name (some a)).2 = none
      ∧ ((Resource.NewGeneratorInt32Attribute name (some a)).1.ModelField n).2 = none
      ∧ ((Resource.NewGeneratorInt32Attribute name (some a)).1.ModelField n).1.Name
          = FrameworkIdentifier.ToPascalCase n
      ∧ ((Resource.NewGeneratorInt32Attribute name (some a)).1.ModelField n).1.TfsdkName = n := by
  refine ⟨rfl, ?_, ?_, ?_⟩ <;>
    (simp only [Resource.GeneratorInt32Attribute.ModelField]; split <;> rfl)

/-- Appending a non-empty text never gives the empty text. -/
theorem append_ne_empty (s t : String) (h : t ≠ "") : s ++ t ≠ "" := by
  intro hst
  apply h
  have h1 : (s ++ t).data = [] := by rw [hst]
  rw [String.data_append] at h1
  have h2 : t.data = [] := (List.append_eq_nil.mp h1).2
  exact String.ext h2

/-- C3, counterexample. The element built under the name `a` from a node with an
association and no custom type, asked for the model field of the identifier `b`, answers
the value type `AValue`, derived from `a`, and not `BValue`, derived from `b`. -/
theorem value_type_not_from_model_field_identifier :
    ((Resource.NewGeneratorInt32Attribute "a"
        (some { AssociatedExternalType := some { Type_ := "*api.Int32Attribute" } })).1.ModelField
          "b").1.ValueType = "AValue"
      ∧ ((Resource.NewGeneratorInt32Attribute "a"
        (some { AssociatedExternalType := some { Type_ := "*api.Int32Attribute" } })).1.ModelField
          "b").1.ValueType ≠ FrameworkIdentifier.ToPascalCase "b" ++ "Value" := by
  decide

/-- C3, amended. The value type of the model field follows the precedence custom value type
> association-derived type > built-in default: it is the value type of the custom type
when that is non-empty, also with an association; otherwise, when the custom-type
descriptor was built with an association, it is the capitalized form of the name the
descriptor was built with, followed by `Value`, whatever identifier the model field is
asked for; otherwise it is `types.Int32`. The descriptor of a constructed element is built
with the name given to the constructor. -/
theorem value_type_precedence (g : Resource.GeneratorInt32Attribute) (n : FrameworkIdentifier) :
    (g.ModelField n).1.ValueType =
        (if g.CustomType.customValueType ≠ "" then g.CustomType.customValueType
         else if g.CustomType.associatedExternalType.isSome then
           FrameworkIdentifier.ToPascalCase g.CustomType.name ++ "Value"
         else "types.Int32")
      ∧ ∀ (name : String) (a : Resource.Int32Attribute),
          (Resource.NewGeneratorInt32Attribute name (some a)).1.CustomType
            = NewCustomTypePrimitive a.CustomType a.AssociatedExternalType name := by
  refine ⟨?_, fun _ _ => rfl⟩
  unfold Resource.GeneratorInt32Attribute.ModelField CustomTypePrimitive.ValueType
  by_cases hc : g.CustomType.customValueType = ""
  · cases ha : g.CustomType.associatedExternalType with
    | none => simp [hc, Model.Int32ValueType]
    | some x =>
      have hne := append_ne_empty (FrameworkIdentifier.ToPascalCase g.CustomType.name) "Value"
        (by decide)
      simp [hc, hne]
  · simp [hc]

end Construction

/-! ## Properties: the schema fragment -/

section SchemaText

open Generatorschema Convert

/-- A text starts with each of its own beginnings. -/
theorem startsWith_append (p r : List Char) : startsWith p (p ++ r) = true := by
  induction p with
  | nil => rfl
  | cons c cs ih => simp [startsWith, ih]

/-- A text that starts another one occurs in it. -/
theorem occursIn_of_startsWith (b t : List Char) (h : startsWith b t = true) :
    occursIn b t = true := by
  cases t with
  | nil => simpa [occursIn] using h
  | cons c cs => simp [occursIn, h]

/-- A text occurs in every text built around it. -/
theorem occursIn_append (b pre post : List Char) : occursIn b (pre ++ (b ++ post)) = true := by
  induction pre with
  | nil => exact occursIn_of_startsWith b _ (startsWith_append b post)
  | cons c cs ih =>
    rw [List.cons_append, occursIn, ih, Bool.or_true]

/-- The decision procedure accepts an occurrence at the start of the text. -/
theorem occursInOrderB_of_head (a b t : List Char)
    (h : (startsWith a t && occursIn b (t.drop a.length)) = true) :
    occursInOrderB a b t = true := by
  cases t with
  | nil => simpa [occursInOrderB] using h
  | cons c cs => simp only [occursInOrderB, h, Bool.true_or]

/-- The decision procedure accepts every text in which the two texts occur in order. -/
theorem occursInOrderB_append (a b pre mid post : List Char) :
    occursInOrderB a b (pre ++ (a ++ (mid ++ (b ++ post)))) = true := by
  induction pre with
  | nil =>
    apply occursInOrderB_of_head
    simp [startsWith_append, occursIn_append]
  | cons c cs ih =>
    rw [List.cons_append, occursInOrderB, ih, Bool.or_true]

/-- Completeness of the decision procedure for `OccursInOrder`. -/
theorem occursInOrderB_of_occursInOrder (a b t : String) (h : OccursInOrder a b t) :
    occursInOrderB a.data b.data t.data = true := by
  obtain ⟨pre, mid, post, rfl⟩ := h
  simp only [String.data_append, List.append_assoc]
  exact occursInOrderB_append _ _ _ _ _

/-- C4, counterexample. For the element built from a node with one validator `v` and one
plan modifier `m`, both list fragments are non-empty and the validators fragment does not
occur before the plan-modifiers fragment in the schema text. -/
theorem validators_not_before_plan_modifiers :
    (Resource.NewGeneratorInt32Attribute "a"
        (some { PlanModifiers := [{ Custom := some { SchemaDefinition := "m" } }],
                Validators := [{ Custom := some { SchemaDefinition := "v" } }] })).1.Validators.Schema
        ≠ ""
      ∧ (Resource.NewGeneratorInt32Attribute "a"
        (some { PlanModifiers := [{ Custom := some { SchemaDefinition := "m" } }],
                Validators := [{ Custom := some { SchemaDefinition := "v" } }] })).1.PlanModifiers.Schema
        ≠ ""
      ∧ ¬ OccursInOrder
          (Resource.NewGeneratorInt32Attribute "a"
            (some { PlanModifiers := [{ Custom := some { SchemaDefinition := "m" } }],
                    Validators := [{ Custom := some { SchemaDefinition := "v" } }] })).1.Validators.Schema
          (Resource.NewGeneratorInt32Attribute "a"
            (some { PlanModifiers := [{ Custom := some { SchemaDefinition := "m" } }],
                    Validators := [{ Custom := some { SchemaDefinition := "v" } }] })).1.PlanModifiers.Schema
          ((Resource.NewGeneratorInt32Attribute "a"
            (some { PlanModifiers := [{ Custom := some { SchemaDefinition := "m" } }],
                    Validators := [{ Custom := some { SchemaDefinition := "v" } }] })).1.Schema
              widePrintable "a").1 := by
  refine ⟨by decide, by decide, fun h => ?_⟩
  have hb := occursInOrderB_of_occursInOrder _ _ _ h
  revert hb
  decide

/-- C4, amended. The schema text is the quoted name and the opening line, then the
fragments of the decorators in the canonical order custom-type override, requiredness,
sensitivity, description, deprecation, plan modifiers, validators, default, then the
closing line, without error; in particular the plan-modifiers fragment occurs before the
validators fragment. -/
theorem schema_fragment_order (wide : Char → Bool) (g : Resource.GeneratorInt32Attribute)
    (name : FrameworkIdentifier) :
    g.Schema wide name =
        (Quote wide name ++ ": schema.Int32Attribute\x7b\n"
          ++ g.CustomType.Schema
          ++ g.ComputedOptionalRequired.Schema
          ++ g.Sensitive.Schema
          ++ g.Description.Schema wide
          ++ g.DeprecationMessage.Schema wide
          ++ g.PlanModifiers.Schema
          ++ g.Validators.Schema
          ++ g.Default.Schema
          ++ "\x7d,", none)
      ∧ OccursInOrder g.PlanModifiers.Schema g.Validators.Schema (g.Schema wide name).1 := by
  refine ⟨rfl, ?_⟩
  refine ⟨Quote wide name ++ ": schema.Int32Attribute\x7b\n" ++ g.CustomType.Schema
      ++ g.ComputedOptionalRequired.Schema ++ g.Sensitive.Schema ++ g.Description.Schema wide
      ++ g.DeprecationMessage.Schema wide, "", g.Default.Schema ++ "\x7d,", ?_⟩
  simp only [Resource.GeneratorInt32Attribute.Schema, String.append_assoc, String.append_empty,
    String.empty_append]

/-- C5. The element whose only populated decorator is the requiredness `required`, be it
the bare element or the one constructed from such a node under any name, has as schema
text exactly the quoted name with the opening line, the line `Required: true,` and the
closing line, without error. -/
theorem required_only_schema (wide : Char → Bool) (name : FrameworkIdentifier) :
    Resource.GeneratorInt32Attribute.Schema wide
        { ComputedOptionalRequired := NewComputedOptionalRequired "required" } name
        = (Quote wide name ++ ": schema.Int32Attribute\x7b\n" ++ "Required: true,\n" ++ "\x7d,",
            none)
      ∧ ∀ built : String,
          (Resource.NewGeneratorInt32Attribute built
              (some { ComputedOptionalRequired := "required" })).1.Schema wide name
            = (Quote wide name ++ ": schema.Int32Attribute\x7b\n" ++ "Required: true,\n"
                ++ "\x7d,", none) := by
  have e : ∀ s : String, s ++ "" = s := String.append_empty
  refine ⟨?_, fun built => ?_⟩
  · show (_ ++ _ ++ "" ++ "Required: true,\n" ++ "" ++ "" ++ "" ++ "" ++ "" ++ "" ++ _, _) = _
    simp only [e]
  · show (_ ++ _ ++ "" ++ "Required: true,\n" ++ "" ++ "" ++ "" ++ "" ++ "" ++ "" ++ _, _) = _
    simp only [e]

/-- C6, the code at the failing input. With a static default of 1234 as the only populated
decorator the default line reads `Default: int32default.StaticInt32(1234),`, the package
in lower case, and the text differs from the one with `Int32default`. -/
theorem static_default_line_lower_case :
    (Resource.GeneratorInt32Attribute.Schema widePrintable
        { Default := NewDefaultInt32 (some { Static := some 1234 }) } "Int32_attribute").1
        = "\"Int32_attribute\": schema.Int32Attribute\x7b\nDefault: int32default.StaticInt32(1234),\n\x7d,"
      ∧ (Resource.GeneratorInt32Attribute.Schema widePrintable
        { Default := NewDefaultInt32 (some { Static := some 1234 }) } "Int32_attribute").1
        ≠ "\"Int32_attribute\": schema.Int32Attribute\x7b\nDefault: Int32default.StaticInt32(1234),\n\x7d," := by
  decide

/-- The schema definitions of a list of validators that are all set. -/
theorem definitions_map_some (t : String) (cs : List Specschema.CustomValidator) :
    (NewValidators t (cs.map some)).definitions = cs.map (fun c => c.SchemaDefinition) := by
  unfold Validators.definitions NewValidators
  induction cs with
  | nil => rfl
  | cons c cs ih => simp

/-- Lines of non-empty definitions are the definitions followed by a comma. -/
theorem definitionLines_eq_commaLines (es : List String) (h : ∀ e ∈ es, e ≠ "") :
    definitionLines es = commaLines es := by
  induction es with
  | nil => rfl
  | cons e es ih =>
    have he : e ≠ "" := h e (List.mem_cons_self e es)
    have ih2 := ih (fun x hx => h x (List.mem_cons_of_mem e hx))
    simp only [definitionLines, commaLines, he, ih2, ne_eq, not_false_eq_true, if_true]

/-- The lines of a non-empty list are a non-empty text. -/
theorem commaLines_length_pos (es : List String) (h : es ≠ []) : (commaLines es).length > 0 := by
  cases es with
  | nil => exact absurd rfl h
  | cons e es =>
    simp only [commaLines, String.length_append]
    have : (",\n" : String).length = 2 := rfl
    omega

/-- C7. For an element whose validators decorator holds custom validators with non-empty
schema definitions, the validators fragment is empty when the list is empty and otherwise
is the one list opened by `Validators: []validator.Int32` and a brace, holding every
definition on its own line followed by a comma, in input order, and closed by a brace and
a comma; the schema text holds this fragment once, between the plan-modifiers fragment
and the default fragment. -/
theorem validators_fragment (wide : Char → Bool) (g : Resource.GeneratorInt32Attribute)
    (name : FrameworkIdentifier) (cs : List Specschema.CustomValidator)
    (hv : g.Validators = NewValidators ValidatorTypeInt32 (cs.map some))
    (hdef : ∀ c ∈ cs, c.SchemaDefinition ≠ "") :
    g.Validators.Schema =
        (if cs = [] then ""
         else "Validators: []validator.Int32\x7b\n"
           ++ commaLines (cs.map (fun c => c.SchemaDefinition)) ++ "\x7d,\n")
      ∧ (g.Schema wide name).1 =
          (Quote wide name ++ ": schema.Int32Attribute\x7b\n"
            ++ g.CustomType.Schema
            ++ g.ComputedOptionalRequired.Schema
            ++ g.Sensitive.Schema
            ++ g.Description.Schema wide
            ++ g.DeprecationMessage.Schema wide
            ++ g.PlanModifiers.Schema)
          ++ (if cs = [] then ""
              else "Validators: []validator.Int32\x7b\n"
                ++ commaLines (cs.map (fun c => c.SchemaDefinition)) ++ "\x7d,\n")
          ++ (g.Default.Schema ++ "\x7d,") := by
  have hs : g.Validators.Schema =
      (if cs = [] then ""
       else "Validators: []validator.Int32\x7b\n"
         ++ commaLines (cs.map (fun c => c.SchemaDefinition)) ++ "\x7d,\n") := by
    have hl : definitionLines (cs.map (fun c => c.SchemaDefinition))
        = commaLines (cs.map (fun c => c.SchemaDefinition)) := by
      apply definitionLines_eq_commaLines
      intro e he
      obtain ⟨c, hc, rfl⟩ := List.mem_map.mp he
      exact hdef c hc
    unfold Validators.Schema
    rw [hv, definitions_map_some, hl]
    by_cases hcs : cs = []
    · subst hcs
      rfl
    · have hpos := commaLines_length_pos (cs.map (fun c => c.SchemaDefinition))
        (by simpa using hcs)
      simp only [hpos, hcs, if_true, if_false]
      rfl
  refine ⟨hs, ?_⟩
  rw [← hs]
  simp only [Resource.GeneratorInt32Attribute.Schema, String.append_assoc]

/-- C7, witness: the two validators of the schema test. -/
theorem validators_fragment_witness :
    (({ Validators := NewValidators ValidatorTypeInt32
          ([{ SchemaDefinition := "my_validator.Validate()" },
            { SchemaDefinition := "my_other_validator.Validate()" }].map some) } :
        Resource.GeneratorInt32Attribute).Validators.Schema
      = (if ([{ SchemaDefinition := "my_validator.Validate()" },
              { SchemaDefinition := "my_other_validator.Validate()" }] :
                List Specschema.CustomValidator) = [] then ""
         else "Validators: []validator.Int32\x7b\n"
           ++ commaLines (([{ SchemaDefinition := "my_validator.Validate()" },
              { SchemaDefinition := "my_other_validator.Validate()" }] :
                List Specschema.CustomValidator).map (fun c => c.SchemaDefinition)) ++ "\x7d,\n"))
      ∧ "Validators: []validator.Int32\x7b\n"
           ++ commaLines (([{ SchemaDefinition := "my_validator.Validate()" },
              { SchemaDefinition := "my_other_validator.Validate()" }] :
                List Specschema.CustomValidator).map (fun c => c.SchemaDefinition)) ++ "\x7d,\n"
          = "Validators: []validator.Int32\x7b\nmy_validator.Validate(),\nmy_other_validator.Validate(),\n\x7d,\n" :=
  ⟨(validators_fragment widePrintable
      { Validators := NewValidators ValidatorTypeInt32
          ([{ SchemaDefinition := "my_validator.Validate()" },
            { SchemaDefinition := "my_other_validator.Validate()" }].map some) }
      "Int32_attribute"
      [{ SchemaDefinition := "my_validator.Validate()" },
       { SchemaDefinition := "my_other_validator.Validate()" }]
      rfl (by decide)).1, by decide⟩

end SchemaText

/-! ## Properties: the import set -/

section ImportSet

open Generatorschema Convert

/-- Adding declarations one by one keeps what is there and appends the first declaration of
every path that is not there yet. -/
theorem foldl_add_imports (l acc : List Code.Import) :
    (l.foldl Imports.Add { imports := acc }).imports
      = acc ++ (dedupByPath l).filter
          (fun e => !acc.any (fun x => decide (x.Path = e.Path))) := by
  induction l generalizing acc with
  | nil => simp [dedupByPath]
  | cons x xs ih =>
    rw [List.foldl_cons]
    by_cases hx : acc.any (fun e => decide (e.Path = x.Path)) = true
    · have hadd : Imports.Add { imports := acc } x = { imports := acc } := by
        simp only [Imports.Add, hx, if_true]
      rw [hadd, ih]
      congr 1
      simp only [dedupByPath, List.filter_cons, hx, Bool.not_true, List.filter_filter]
      simp only [Bool.false_eq_true, if_false]
      apply List.filter_congr
      intro e _
      by_cases he : e.Path = x.Path
      · rw [he, hx]
        rfl
      · simp [he]
    · have hadd : Imports.Add { imports := acc } x = { imports := acc ++ [x] } := by
        simp only [Imports.Add, hx, Bool.false_eq_true, if_false]
      rw [hadd, ih]
      have hx2 : acc.any (fun e => decide (e.Path = x.Path)) = false := by
        simpa using hx
      simp only [dedupByPath, List.filter_cons, hx2, Bool.not_false, if_true,
        List.filter_filter, List.append_assoc, List.singleton_append]
      congr 2
      apply List.filter_congr
      intro e _
      by_cases he : e.Path = x.Path
      · simp [he]
      · have he2 : ¬ x.Path = e.Path := fun h => he h.symm
        simp [he, he2]

/-- Adding a sequence of declarations to the empty set gives its ordered-set reading. -/
theorem foldl_add_empty (l : List Code.Import) :
    (l.foldl Imports.Add NewImports).imports = dedupByPath l := by
  have h := foldl_add_imports l []
  simpa [NewImports] using h

/-- The imports of an element, as the ordered-set reading of the concatenated
contributions. -/
theorem imports_all_eq (g : Resource.GeneratorInt32Attribute) :
    g.Imports.All =
      dedupByPath (g.CustomType.Imports.All ++ g.Default.Imports.All
        ++ g.PlanModifiers.Imports.All ++ g.Validators.Imports.All
        ++ (match g.AssociatedExternalType with
            | some a => AssociatedExternalTypeImports.All ++ (AssocExtType.Imports (some a)).All
            | none => [])) := by
  rw [← foldl_add_empty]
  cases hg : g.AssociatedExternalType with
  | none =>
    simp only [Resource.GeneratorInt32Attribute.Imports, Imports.Append, Imports.All, hg,
      List.foldl_append, AssocExtType.Imports, NewImports, List.foldl_nil]
  | some a =>
    simp only [Resource.GeneratorInt32Attribute.Imports, Imports.Append, Imports.All, hg,
      List.foldl_append]

/-- C8. The imports of an element are the path-deduplicated, first-occurrence-ordered
concatenation of the imports of the custom-type descriptor, of the default, of the plan
modifiers, of the validators and, only with an association, of the fixed support imports
followed by the import of the association. A descriptor without custom type contributes
the types import alone, and the zero-value element has exactly the types import. -/
theorem imports_order (g : Resource.GeneratorInt32Attribute) :
    g.Imports.All =
        dedupByPath (g.CustomType.Imports.All ++ g.Default.Imports.All
          ++ g.PlanModifiers.Imports.All ++ g.Validators.Imports.All
          ++ (match g.AssociatedExternalType with
              | some a => AssociatedExternalTypeImports.All ++ (AssocExtType.Imports (some a)).All
              | none => []))
      ∧ (∀ (a : Option Specschema.AssociatedExternalType) (n : String),
          (NewCustomTypePrimitive none a n).Imports.All = [{ Path := TypesImport }])
      ∧ Resource.GeneratorInt32Attribute.Imports {} = { imports := [{ Path := TypesImport }] } :=
  ⟨imports_all_eq g, fun _ _ => rfl, by decide⟩

/-- The ordered-set reading only holds declarations of the sequence. -/
theorem mem_of_mem_dedupByPath (l : List Code.Import) (e : Code.Import)
    (h : e ∈ dedupByPath l) : e ∈ l := by
  induction l with
  | nil => simp [dedupByPath] at h
  | cons x xs ih =>
    simp only [dedupByPath, List.mem_cons, List.mem_filter] at h
    rcases h with h | ⟨h, _⟩
    · exact h ▸ List.mem_cons_self _ _
    · exact List.mem_cons_of_mem _ (ih h)

/-- The ordered-set reading holds every path at most once. -/
theorem nodup_dedupByPath (l : List Code.Import) :
    ((dedupByPath l).map (fun e => e.Path)).Nodup := by
  induction l with
  | nil => simp [dedupByPath]
  | cons x xs ih =>
    simp only [dedupByPath, List.map_cons, List.nodup_cons]
    constructor
    · intro hmem
      obtain ⟨e, he, hp⟩ := List.mem_map.mp hmem
      simp only [List.mem_filter, Bool.not_eq_true', decide_eq_false_iff_not] at he
      exact he.2 hp
    · exact List.Nodup.sublist ((List.filter_sublist _).map _) ih

/-- A text of positive length is not the empty text. -/
theorem ne_empty_of_length_pos (s : String) (h : s.length > 0) : s ≠ "" := by
  intro hs
  rw [hs] at h
  exact absurd h (by decide)

/-- A declaration of a set after an addition was there before or is the added one. -/
theorem mem_add (i : Imports) (c e : Code.Import) (h : e ∈ (i.Add c).imports) :
    e ∈ i.imports ∨ e = c := by
  unfold Imports.Add at h
  split at h
  · exact Or.inl h
  · simpa using h

/-- The descriptor of the custom type contributes no empty path. -/
theorem customType_imports_paths (c : CustomTypePrimitive) :
    ∀ e ∈ c.Imports.All, e.Path ≠ "" := by
  intro e he
  unfold CustomTypePrimitive.Imports Imports.All at he
  split at he
  · split at he
    · split at he
      · rename_i imp _ hlen
        rcases mem_add _ _ _ he with h | h
        · simp [NewImports] at h
        · rw [h]
          exact ne_empty_of_length_pos _ hlen
      · simp [NewImports] at he
    · simp [NewImports] at he
  · rcases mem_add _ _ _ he with h | h
    · simp [NewImports] at h
    · rw [h]
      decide

/-- The loop over the imports of a custom default adds no empty path. -/
theorem foldl_addNonEmpty_paths (l : List Code.Import) (acc : Imports)
    (hacc : ∀ e ∈ acc.imports, e.Path ≠ "") :
    ∀ e ∈ (l.foldl addNonEmpty acc).imports, e.Path ≠ "" := by
  induction l generalizing acc with
  | nil => simpa using hacc
  | cons x xs ih =>
    rw [List.foldl_cons]
    apply ih
    intro e he
    unfold addNonEmpty at he
    split at he
    · rename_i hlen
      rcases mem_add _ _ _ he with h | h
      · exact hacc e h
      · rw [h]
        exact ne_empty_of_length_pos _ hlen
    · exact hacc e he

/-- The default decorator contributes no empty path. -/
theorem default_imports_paths (d : DefaultInt32) : ∀ e ∈ d.Imports.All, e.Path ≠ "" := by
  have hstatic : ∀ e ∈ (NewImports.Add { Path := defaultInt32Import }).imports, e.Path ≠ "" := by
    decide
  have hnone : ∀ e ∈ NewImports.imports, e.Path ≠ "" := by
    decide
  intro e he
  unfold DefaultInt32.Imports Imports.All at he
  split at he
  · exact hnone e he
  · rename_i x _
    cases hs : x.Static <;> cases hc : x.Custom <;> simp only [hs, hc] at he
    · exact hnone e he
    · exact foldl_addNonEmpty_paths _ _ hnone e he
    · exact hstatic e he
    · exact foldl_addNonEmpty_paths _ _ hstatic e he

/-- The loop over the imports of one validator or plan modifier adds no empty path. -/
theorem foldl_addWithPackage_paths (pkg : String) (hpkg : pkg ≠ "") (l : List Code.Import)
    (acc : Imports) (hacc : ∀ e ∈ acc.imports, e.Path ≠ "") :
    ∀ e ∈ (l.foldl (addWithPackage pkg) acc).imports, e.Path ≠ "" := by
  induction l generalizing acc with
  | nil => simpa using hacc
  | cons x xs ih =>
    rw [List.foldl_cons]
    apply ih
    intro e he
    unfold addWithPackage at he
    split at he
    · rename_i hlen
      rcases mem_add _ _ _ he with h | h
      · rcases mem_add _ _ _ h with h2 | h2
        · exact hacc e h2
        · rw [h2]
          exact hpkg
      · rw [h]
        exact ne_empty_of_length_pos _ hlen
    · exact hacc e he

/-- The loop over all validators or plan modifiers adds no empty path. -/
theorem foldl_foldl_addWithPackage_paths (pkg : String) (hpkg : pkg ≠ "")
    (ls : List (List Code.Import)) (acc : Imports) (hacc : ∀ e ∈ acc.imports, e.Path ≠ "") :
    ∀ e ∈ (ls.foldl (fun acc is => is.foldl (addWithPackage pkg) acc) acc).imports,
      e.Path ≠ "" := by
  induction ls generalizing acc with
  | nil => simpa using hacc
  | cons x xs ih =>
    rw [List.foldl_cons]
    exact ih _ (foldl_addWithPackage_paths pkg hpkg x acc hacc)

/-- The association contributes no empty path. -/
theorem assoc_imports_paths (a : Option AssocExtType) :
    ∀ e ∈ (AssocExtType.Imports a).All, e.Path ≠ "" := by
  intro e he
  unfold AssocExtType.Imports Imports.All at he
  split at he
  · simp [NewImports] at he
  · split at he
    · simp [NewImports] at he
    · split at he
      · rename_i hlen
        rcases mem_add _ _ _ he with h | h
        · simp [NewImports] at h
        · rw [h]
          exact ne_empty_of_length_pos _ hlen
      · simp [NewImports] at he

/-- C9. The imports of an element, whatever its custom type, default, plan modifiers,
validators and association, hold no path twice and no empty path. -/
theorem imports_no_duplicate_no_empty (g : Resource.GeneratorInt32Attribute) :
    (g.Imports.All.map (fun e => e.Path)).Nodup ∧ ∀ e ∈ g.Imports.All, e.Path ≠ "" := by
  rw [imports_all_eq]
  refine ⟨nodup_dedupByPath _, fun e he => ?_⟩
  have hmem := mem_of_mem_dedupByPath _ _ he
  have hfixed : ∀ e ∈ AssociatedExternalTypeImports.All, e.Path ≠ "" := by
    decide
  simp only [List.mem_append] at hmem
  rcases hmem with (((h | h) | h) | h) | h
  · exact customType_imports_paths _ e h
  · exact default_imports_paths _ e h
  · exact foldl_foldl_addWithPackage_paths PlanModifierImport (by decide) _ _
      (by decide) e h
  · exact foldl_foldl_addWithPackage_paths ValidatorImport (by decide) _ _
      (by decide) e h
  · cases hg : g.AssociatedExternalType with
    | none => simp [hg] at h
    | some a =>
      simp only [hg, List.mem_append] at h
      rcases h with h | h
      · exact hfixed e h
      · exact assoc_imports_paths _ e h

end ImportSet

/-! ## Properties: equality and conversion descriptors -/

section EqualAndConversion

open Generatorschema Convert

/-- A guard that answers false on a failed comparison is a conjunction. -/
theorem if_not_eq_and (a x : Bool) : (if (!a) = true then false else x) = (a && x) := by
  cases a <;> rfl

/-- `Equal` on two resource Int32 elements is the conjunction of the nine field
comparisons. -/
theorem equal_eq_and (g h : Resource.GeneratorInt32Attribute) :
    g.Equal (GeneratorAttribute.resourceInt32 h) =
      (AssocExtType.Equal g.AssociatedExternalType h.AssociatedExternalType
        && (g.ComputedOptionalRequired.Equal h.ComputedOptionalRequired
        && (g.CustomType.Equal h.CustomType
        && (g.Default.Equal h.Default
        && (g.DeprecationMessage.Equal h.DeprecationMessage
        && (g.Description.Equal h.Description
        && (g.PlanModifiers.Equal h.PlanModifiers
        && (g.Sensitive.Equal h.Sensitive
        && g.Validators.Equal h.Validators)))))))) := by
  simp only [Resource.GeneratorInt32Attribute.Equal, if_not_eq_and]

/-- C11. `Equal` on a resource Int32 element is the comparison across every field: it is
true exactly when the other value is a resource Int32 element and the nine field
comparisons all hold, any other variant giving false; and it decides equality of the two
elements, so elements that differ in a field are not `Equal`. -/
theorem equal_iff_all_fields (g : Resource.GeneratorInt32Attribute) (ga : GeneratorAttribute) :
    (g.Equal ga = true ↔
        ∃ h : Resource.GeneratorInt32Attribute, ga = GeneratorAttribute.resourceInt32 h
          ∧ AssocExtType.Equal g.AssociatedExternalType h.AssociatedExternalType = true
          ∧ g.ComputedOptionalRequired.Equal h.ComputedOptionalRequired = true
          ∧ g.CustomType.Equal h.CustomType = true
          ∧ g.Default.Equal h.Default = true
          ∧ g.DeprecationMessage.Equal h.DeprecationMessage = true
          ∧ g.Description.Equal h.Description = true
          ∧ g.PlanModifiers.Equal h.PlanModifiers = true
          ∧ g.Sensitive.Equal h.Sensitive = true
          ∧ g.Validators.Equal h.Validators = true)
      ∧ (∀ (p : Provider.GeneratorInt32Attribute),
          g.Equal (GeneratorAttribute.providerInt32 p) = false)
      ∧ (∀ tag : Nat, g.Equal (GeneratorAttribute.otherKind tag) = false)
      ∧ ∀ h : Resource.GeneratorInt32Attribute,
          g.Equal (GeneratorAttribute.resourceInt32 h) = decide (g = h) := by
  refine ⟨?_, fun _ => rfl, fun _ => rfl, ?_⟩
  · cases ga with
    | resourceInt32 h =>
      rw [equal_eq_and]
      simp only [Bool.and_eq_true]
      constructor
      · intro hh
        exact ⟨h, rfl, hh⟩
      · rintro ⟨h2, heq, rest⟩
        cases heq
        exact rest
    | providerInt32 p => simp [Resource.GeneratorInt32Attribute.Equal]
    | otherKind tag => simp [Resource.GeneratorInt32Attribute.Equal]
  · intro h
    rw [equal_eq_and]
    rcases g with ⟨g1, g2, g3, ⟨g4⟩, g5, g6, g7, g8, g9⟩
    rcases h with ⟨h1, h2, h3, ⟨h4⟩, h5, h6, h7, h8, h9⟩
    simp only [AssocExtType.Equal,
      ComputedOptionalRequired.Equal, CustomTypePrimitive.Equal, DefaultInt32.Equal,
      Specschema.Int32Default.Equal, DeprecationMessage.Equal, Description.Equal,
      PlanModifiers.Equal, Sensitive.Equal, Validators.Equal,
      Resource.GeneratorInt32Attribute.mk.injEq, DefaultInt32.mk.injEq, Bool.decide_and]

/-- C12. `To` and `From` of an Int32 element, resource and provider, never answer with an
error. Without association `To` answers the descriptor with default `ValueInt32Pointer`
and `From` the one with default `Int32PointerValue`, no association set; with an
association both answer the descriptor of that association with an empty default. -/
theorem to_from_descriptors (g : Resource.GeneratorInt32Attribute)
    (p : Provider.GeneratorInt32Attribute) (a : AssocExtType) :
    (g.To.2 = none ∧ g.From.2 = none ∧ p.To.2 = none ∧ p.From.2 = none)
      ∧ Resource.GeneratorInt32Attribute.To { g with AssociatedExternalType := none }
          = ({ Default := "ValueInt32Pointer", AssocExtType := none }, none)
      ∧ Resource.GeneratorInt32Attribute.From { g with AssociatedExternalType := none }
          = ({ Default := "Int32PointerValue", AssocExtType := none }, none)
      ∧ Resource.GeneratorInt32Attribute.To { g with AssociatedExternalType := some a }
          = ({ Default := "", AssocExtType := some a }, none)
      ∧ Resource.GeneratorInt32Attribute.From { g with AssociatedExternalType := some a }
          = ({ Default := "", AssocExtType := some a }, none)
      ∧ Provider.GeneratorInt32Attribute.To { p with AssociatedExternalType := none }
          = ({ Default := "ValueInt32Pointer", AssocExtType := none }, none)
      ∧ Provider.GeneratorInt32Attribute.From { p with AssociatedExternalType := none }
          = ({ Default := "Int32PointerValue", AssocExtType := none }, none)
      ∧ Provider.GeneratorInt32Attribute.To { p with AssociatedExternalType := some a }
          = ({ Default := "", AssocExtType := some a }, none)
      ∧ Provider.GeneratorInt32Attribute.From { p with AssociatedExternalType := some a }
          = ({ Default := "", AssocExtType := some a }, none) := by
  refine ⟨⟨?_, ?_, ?_, ?_⟩, rfl, rfl, rfl, rfl, rfl, rfl, rfl, rfl⟩
  · unfold Resource.GeneratorInt32Attribute.To
    cases g.AssociatedExternalType <;> rfl
  · unfold Resource.GeneratorInt32Attribute.From
    cases g.AssociatedExternalType <;> rfl
  · unfold Provider.GeneratorInt32Attribute.To
    cases p.AssociatedExternalType <;> rfl
  · unfold Provider.GeneratorInt32Attribute.From
    cases p.AssociatedExternalType <;> rfl

/-- C13. `To` and `From` of a provider MapNested element, whatever its configuration,
answer the zero-value descriptor together with the unimplemented-capability error built
by `NewUnimplementedError` around `map nested type is not yet implemented`: the error is
never nil, carries that message, and is no generic error. -/
theorem map_nested_to_from_unimplemented (g : Provider.GeneratorMapNestedAttribute) :
    g.To = ({ Default := "", AssocExtType := none },
        some (NewUnimplementedError (errorsNew "map nested type is not yet implemented")))
      ∧ g.From = ({ Default := "", AssocExtType := none },
        some (NewUnimplementedError (errorsNew "map nested type is not yet implemented")))
      ∧ g.To.2 ≠ none ∧ g.From.2 ≠ none
      ∧ g.To.2.map GoError.Error = some "map nested type is not yet implemented"
      ∧ g.From.2.map GoError.Error = some "map nested type is not yet implemented"
      ∧ ∀ msg : String, g.To.2 ≠ some (GoError.errorf msg)
          ∧ g.From.2 ≠ some (GoError.errorf msg) := by
  refine ⟨rfl, rfl, ?_, ?_, rfl, rfl, fun msg => ⟨?_, ?_⟩⟩ <;>
    simp [Provider.GeneratorMapNestedAttribute.To, Provider.GeneratorMapNestedAttribute.From,
      NewUnimplementedError]

end EqualAndConversion

/-! ## Properties: wrapper types and bridging functions of the Int32 kind -/

section WrapperText

open Generatorschema Convert

/-- A render loop that succeeds has written a newline for every render function. -/
theorem renderLoop_length (fs : List (String × Option GoError)) (buf out : String)
    (h : renderLoop fs buf = (out, none)) : buf.length + fs.length ≤ out.length := by
  induction fs generalizing buf with
  | nil =>
    simp only [renderLoop, Prod.mk.injEq, and_true] at h
    simp [h]
  | cons f fs ih =>
    rcases f with ⟨b, e⟩
    cases e with
    | some err => simp [renderLoop] at h
    | none =>
      simp only [renderLoop] at h
      have h2 := ih _ h
      simp only [String.length_append, List.length_cons] at h2 ⊢
      have h3 : ("\n" : String).length = 1 := rfl
      omega

/-- The wrapper type of the Int32 kind, when it renders, is not the nil text. -/
theorem int32_type_render_ne_empty (E : Env) (name t : String)
    (h : (NewCustomInt32Type E name).Render E = (t, none)) : t ≠ "" := by
  intro ht
  have hl := renderLoop_length _ _ _ h
  rw [ht] at hl
  simp at hl

/-- C14. Wrapper and bridging text of a resource Int32 element is emitted only with an
association. Without one, `CustomTypeAndValue` and `ToFromFunctions` answer nil bytes and
a nil error, whatever the templates do. With one, whenever the two wrappers render, to
`t` and `v`, `CustomTypeAndValue` answers `t` immediately followed by `v`, which is not
nil; and `ToFromFunctions` answers the render of the bridging functions of the name and
the association: its error, and its bytes when there is no error. -/
theorem wrapper_text_only_with_association (E : Env) (g : Resource.GeneratorInt32Attribute)
    (name : String) (a : AssocExtType) :
    Resource.GeneratorInt32Attribute.CustomTypeAndValue E
        { g with AssociatedExternalType := none } name = ("", none)
      ∧ Resource.GeneratorInt32Attribute.ToFromFunctions E
        { g with AssociatedExternalType := none } name = ("", none)
      ∧ (∀ t v : String,
          (NewCustomInt32Type E name).Render E = (t, none) →
          (NewCustomInt32Value E name).Render E = (v, none) →
          Resource.GeneratorInt32Attribute.CustomTypeAndValue E
              { g with AssociatedExternalType := some a } name = (t ++ v, none)
            ∧ t ++ v ≠ "")
      ∧ (Resource.GeneratorInt32Attribute.ToFromFunctions E
          { g with AssociatedExternalType := some a } name).2 = (E.ToFromInt32Render name a).2
      ∧ (Resource.GeneratorInt32Attribute.ToFromFunctions E
          { g with AssociatedExternalType := some a } name).1
          = (if (E.ToFromInt32Render name a).2 = none then (E.ToFromInt32Render name a).1
             else "") := by
  refine ⟨rfl, rfl, ?_, ?_, ?_⟩
  · intro t v ht hv
    constructor
    · simp only [Resource.GeneratorInt32Attribute.CustomTypeAndValue, ht, hv]
    · intro hempty
      have h1 : (t ++ v).length = 0 := by rw [hempty]; rfl
      rw [String.length_append] at h1
      have h2 : t.length = 0 := by omega
      have h3 : t = "" := by
        apply String.ext
        exact List.length_eq_zero.mp h2
      exact int32_type_render_ne_empty E name t ht h3
  · simp only [Resource.GeneratorInt32Attribute.ToFromFunctions]
    rcases E.ToFromInt32Render name a with ⟨b, e⟩
    cases e <;> rfl
  · simp only [Resource.GeneratorInt32Attribute.ToFromFunctions]
    rcases E.ToFromInt32Render name a with ⟨b, e⟩
    cases e <;> simp

set_option maxRecDepth 100000

/-- C14, witness: the sample templates, the name `int32_attribute` and an association to
`*api.Int32`. -/
theorem wrapper_text_only_with_association_witness :
    Resource.GeneratorInt32Attribute.CustomTypeAndValue sampleEnv {} "int32_attribute"
        = ("", none)
      ∧ Resource.GeneratorInt32Attribute.CustomTypeAndValue sampleEnv
          { AssociatedExternalType := some { AssociatedExternalType := { Type_ := "*api.Int32" } } }
          "int32_attribute"
        = (((NewCustomInt32Type sampleEnv "int32_attribute").Render sampleEnv).1
            ++ ((NewCustomInt32Value sampleEnv "int32_attribute").Render sampleEnv).1, none)
      ∧ ((NewCustomInt32Type sampleEnv "int32_attribute").Render sampleEnv).1
          ++ ((NewCustomInt32Value sampleEnv "int32_attribute").Render sampleEnv).1
        = "\nint32 type typable Int32Attribute\n\nint32 type type Int32Attribute\n\nint32 type equal Int32Attribute\n\nint32 type string Int32Attribute\n\nint32 type valueFromInt32 Int32Attribute\n\nint32 type valueFromTerraform Int32Attribute\n\nint32 type valueType Int32Attribute\n\nint32 value valuable Int32Attribute\n\nint32 value value Int32Attribute\n\nint32 value equal Int32Attribute\n\nint32 value type Int32Attribute\n" :=
  ⟨(wrapper_text_only_with_association sampleEnv {} "int32_attribute"
      { AssociatedExternalType := { Type_ := "*api.Int32" } }).1,
   ((wrapper_text_only_with_association sampleEnv {} "int32_attribute"
      { AssociatedExternalType := { Type_ := "*api.Int32" } }).2.2.1 _ _ rfl rfl).1,
   by decide⟩

/-- C15, the code at the failing input. With the sample templates, the provider Int32
element with an association to `*api.Int32` answers, for `int32_attribute`, the wrapper
type of the Int64 kind followed by the wrapper value of the Int32 kind, which is not what
the resource Int32 element answers for the same name and association. -/
theorem provider_wrapper_type_is_int64 :
    Provider.GeneratorInt32Attribute.CustomTypeAndValue sampleEnv
        { AssociatedExternalType := some { AssociatedExternalType := { Type_ := "*api.Int32" } } }
        "int32_attribute"
        = ((sampleEnv.CustomInt64TypeRender "int32_attribute").1
            ++ ((NewCustomInt32Value sampleEnv "int32_attribute").Render sampleEnv).1, none)
      ∧ Provider.GeneratorInt32Attribute.CustomTypeAndValue sampleEnv
        { AssociatedExternalType := some { AssociatedExternalType := { Type_ := "*api.Int32" } } }
        "int32_attribute"
        ≠ Resource.GeneratorInt32Attribute.CustomTypeAndValue sampleEnv
        { AssociatedExternalType := some { AssociatedExternalType := { Type_ := "*api.Int32" } } }
        "int32_attribute" := by
  decide

end WrapperText

/-! ## Properties: the order of Go strings and the child mapping -/

section ChildMapping

open Generatorschema Convert

/-- Any two character lists are comparable. -/
theorem leChars_total (a b : List Char) : leChars a b = true ∨ leChars b a = true := by
  induction a generalizing b with
  | nil => exact Or.inl (by simp [leChars])
  | cons x xs ih =>
    cases b with
    | nil => exact Or.inr (by simp [leChars])
    | cons y ys =>
      simp only [leChars]
      by_cases h1 : x.toNat < y.toNat
      · simp [h1]
      · by_cases h2 : y.toNat < x.toNat
        · simp [h2]
        · simpa [h1, h2] using ih ys

/-- The order of character lists is transitive. -/
theorem leChars_trans (a b c : List Char) (h1 : leChars a b = true)
    (h2 : leChars b c = true) : leChars a c = true := by
  induction a generalizing b c with
  | nil => simp [leChars]
  | cons x xs ih =>
    cases b with
    | nil => simp [leChars] at h1
    | cons y ys =>
      cases c with
      | nil => simp [leChars] at h2
      | cons z zs =>
        simp only [leChars] at h1 h2 ⊢
        by_cases hxy : x.toNat < y.toNat
        · by_cases hyz : y.toNat < z.toNat
          · have : x.toNat < z.toNat := by omega
            simp [this]
          · by_cases hzy : z.toNat < y.toNat
            · simp [hyz, hzy] at h2
            · have : x.toNat < z.toNat := by omega
              simp [this]
        · by_cases hyx : y.toNat < x.toNat
          · simp [hxy, hyx] at h1
          · simp only [hxy, hyx, if_false] at h1
            by_cases hyz : y.toNat < z.toNat
            · have : x.toNat < z.toNat := by omega
              simp [this]
            · by_cases hzy : z.toNat < y.toNat
              · simp [hyz, hzy] at h2
              · simp only [hyz, hzy, if_false] at h2
                have h3 : ¬ x.toNat < z.toNat := by omega
                have h4 : ¬ z.toNat < x.toNat := by omega
                simp only [h3, h4, if_false]
                exact ih ys zs h1 h2

/-- Character lists that are below each other are equal. -/
theorem leChars_antisymm (a b : List Char) (h1 : leChars a b = true)
    (h2 : leChars b a = true) : a = b := by
  induction a generalizing b with
  | nil =>
    cases b with
    | nil => rfl
    | cons y ys => simp [leChars] at h2
  | cons x xs ih =>
    cases b with
    | nil => simp [leChars] at h1
    | cons y ys =>
      simp only [leChars] at h1 h2
      by_cases hxy : x.toNat < y.toNat
      · have hyx : ¬ y.toNat < x.toNat := by omega
        simp [hxy, hyx] at h2
      · by_cases hyx : y.toNat < x.toNat
        · simp [hxy, hyx] at h1
        · simp only [hxy, hyx, if_false] at h1 h2
          have hn : x.toNat = y.toNat := by omega
          have hc : x = y := by
            rw [← Char.ofNat_toNat x, ← Char.ofNat_toNat y, hn]
          rw [hc, ih ys h1 h2]

/-- The sorted keys are in ascending order. -/
theorem sortStrings_sorted (l : List String) :
    List.Sorted (fun a b => leString a b = true) (sortStrings l) := by
  have htotal : IsTotal String (fun a b => leString a b = true) :=
    ⟨fun a b => leChars_total a.data b.data⟩
  have htrans : IsTrans String (fun a b => leString a b = true) :=
    ⟨fun a b c h1 h2 => leChars_trans a.data b.data c.data h1 h2⟩
  exact List.sorted_insertionSort _ l

/-- Sorting does not depend on the order in which the strings are listed. -/
theorem sortStrings_perm (l1 l2 : List String) (h : l1.Perm l2) :
    sortStrings l1 = sortStrings l2 := by
  have hanti : IsAntisymm String (fun a b => leString a b = true) :=
    ⟨fun a b h1 h2 => String.ext (leChars_antisymm a.data b.data h1 h2)⟩
  apply List.eq_of_perm_of_sorted _ (sortStrings_sorted l1) (sortStrings_sorted l2)
  exact ((List.perm_insertionSort _ l1).trans h).trans (List.perm_insertionSort _ l2).symm

/-- The index expression does not depend on the order in which the bindings of a mapping
are listed. -/
theorem index_perm (l1 l2 : GeneratorAttributes) (hp : l1.Perm l2)
    (hn : (GeneratorAttributes.keys l1).Nodup) (k : String) :
    GeneratorAttributes.index l1 k = GeneratorAttributes.index l2 k := by
  induction hp with
  | nil => rfl
  | cons x _ ih =>
    rcases x with ⟨key, v⟩
    simp only [GeneratorAttributes.keys, List.map_cons, List.nodup_cons] at hn
    simp only [GeneratorAttributes.index]
    split
    · rfl
    · exact ih hn.2
  | swap x y l =>
    rcases x with ⟨kx, vx⟩
    rcases y with ⟨ky, vy⟩
    simp only [GeneratorAttributes.keys, List.map_cons, List.nodup_cons, List.mem_cons,
      not_or] at hn
    simp only [GeneratorAttributes.index]
    by_cases h1 : ky = k
    · by_cases h2 : kx = k
      · exact absurd (h1.trans h2.symm) hn.1.1
      · simp [h1, h2]
    · simp [h1]
  | trans h1 _ ih1 ih2 =>
    have hn2 : (GeneratorAttributes.keys _).Nodup :=
      (List.Perm.nodup_iff (h1.map (fun kv : String × Element => kv.1))).mp hn
    exact (ih1 hn).trans (ih2 hn2)

/-- The loop over the children only looks at the bindings of the keys it is given. -/
theorem customTypeAndValueLoop_congr (l1 l2 : GeneratorAttributes)
    (h : ∀ k, GeneratorAttributes.index l1 k = GeneratorAttributes.index l2 k)
    (ks : List String) (buf : String) :
    Provider.customTypeAndValueLoop l1 ks buf = Provider.customTypeAndValueLoop l2 ks buf := by
  induction ks generalizing buf with
  | nil => rfl
  | cons k ks ih =>
    simp only [Provider.customTypeAndValueLoop, h k]
    split
    · split
      · rfl
      · exact ih _
    · exact ih _

/-- A loop over the children that succeeds has appended the text of every child, in the
order of the keys. -/
theorem customTypeAndValueLoop_success (l : GeneratorAttributes) (ks : List String)
    (buf out : String) (h : Provider.customTypeAndValueLoop l ks buf = (out, none)) :
    out = buf ++ concatTexts (ks.map (childCustomTypeAndValue l)) := by
  induction ks generalizing buf with
  | nil =>
    simp only [Provider.customTypeAndValueLoop, Prod.mk.injEq, and_true] at h
    simp [concatTexts, h]
  | cons k ks ih =>
    simp only [Provider.customTypeAndValueLoop] at h
    simp only [List.map_cons, concatTexts, childCustomTypeAndValue]
    cases hm : (GeneratorAttributes.index l k).bind (fun c => c.CustomTypeAndValue) with
    | none =>
      simp only [hm] at h
      rw [ih _ h]
      simp
    | some f =>
      simp only [hm] at h
      rcases hf : f k with ⟨b, e⟩
      simp only [hf] at h
      cases e with
      | some err => simp at h
      | none =>
        simp only at h
        rw [ih _ h, String.append_assoc]
        simp only [hf]

/-- A loop over the bridging functions of the children that succeeds has appended the
text of every child, in the order of the keys. -/
theorem toFromFunctionsLoop_success (l : GeneratorAttributes) (ks : List String)
    (buf out : String) (h : Provider.toFromFunctionsLoop l ks buf = (out, none)) :
    out = buf ++ concatTexts (ks.map (childToFromFunctions l)) := by
  induction ks generalizing buf with
  | nil =>
    simp only [Provider.toFromFunctionsLoop, Prod.mk.injEq, and_true] at h
    simp [concatTexts, h]
  | cons k ks ih =>
    simp only [Provider.toFromFunctionsLoop] at h
    simp only [List.map_cons, concatTexts, childToFromFunctions]
    cases hm : (GeneratorAttributes.index l k).bind (fun c => c.ToFromFunctions) with
    | none =>
      simp only [hm] at h
      rw [ih _ h]
      simp
    | some f =>
      simp only [hm] at h
      rcases hf : f k with ⟨b, e⟩
      simp only [hf] at h
      cases e with
      | some err => simp at h
      | none =>
        simp only at h
        rw [ih _ h, String.append_assoc]
        simp only [hf]

/-- A successful `CustomTypeAndValue` of a MapNested element is the wrapper type text,
the wrapper value text and the texts of the children in the order of the sorted keys. -/
theorem mapNested_customTypeAndValue_success (N : NestedEnv)
    (g : Provider.GeneratorMapNestedAttribute) (name : String)
    (h : (g.CustomTypeAndValue N name).2 = none) :
    (g.CustomTypeAndValue N name).1 =
      (N.CustomNestedObjectTypeRender name (N.AttrValues g.NestedObject.Attributes).1).1
        ++ (N.CustomNestedObjectValueRender name
              (N.AttributeTypes g.NestedObject.Attributes).1
              (N.AttrTypes g.NestedObject.Attributes).1
              (N.AttrValues g.NestedObject.Attributes).1
              (N.CollectionTypes g.NestedObject.Attributes).1).1
        ++ concatTexts (g.NestedObject.Attributes.SortedKeys.map
              (childCustomTypeAndValue g.NestedObject.Attributes)) := by
  revert h
  unfold Provider.GeneratorMapNestedAttribute.CustomTypeAndValue
  rcases N.AttrValues g.NestedObject.Attributes with ⟨v1, e1⟩
  cases e1 with
  | some err => intro h; simp at h
  | none =>
    simp only
    rcases N.CustomNestedObjectTypeRender name v1 with ⟨b, e2⟩
    cases e2 with
    | some err => intro h; simp at h
    | none =>
      simp only
      rcases N.AttributeTypes g.NestedObject.Attributes with ⟨v3, e3⟩
      cases e3 with
      | some err => intro h; simp at h
      | none =>
        simp only
        rcases N.AttrTypes g.NestedObject.Attributes with ⟨v4, e4⟩
        cases e4 with
        | some err => intro h; simp at h
        | none =>
          simp only
          rcases N.CollectionTypes g.NestedObject.Attributes with ⟨v5, e5⟩
          cases e5 with
          | some err => intro h; simp at h
          | none =>
            simp only
            rcases N.CustomNestedObjectValueRender name v3 v4 v1 v5 with ⟨b2, e6⟩
            cases e6 with
            | some err => intro h; simp at h
            | none =>
              simp only
              rcases hl : Provider.customTypeAndValueLoop g.NestedObject.Attributes
                g.NestedObject.Attributes.SortedKeys (b ++ b2) with ⟨out, e⟩
              intro h
              simp only at h
              subst h
              exact customTypeAndValueLoop_success _ _ _ _ hl

/-- `CustomTypeAndValue` of a MapNested element only depends on the child mapping, and on
it only through the aggregations, the sorted keys and the bindings. -/
theorem mapNested_customTypeAndValue_congr (N : NestedEnv)
    (g1 g2 : Provider.GeneratorMapNestedAttribute) (name : String)
    (hv : N.AttrValues g1.NestedObject.Attributes = N.AttrValues g2.NestedObject.Attributes)
    (ht : N.AttributeTypes g1.NestedObject.Attributes
      = N.AttributeTypes g2.NestedObject.Attributes)
    (ha : N.AttrTypes g1.NestedObject.Attributes = N.AttrTypes g2.NestedObject.Attributes)
    (hc : N.CollectionTypes g1.NestedObject.Attributes
      = N.CollectionTypes g2.NestedObject.Attributes)
    (hk : g1.NestedObject.Attributes.SortedKeys = g2.NestedObject.Attributes.SortedKeys)
    (hi : ∀ k, GeneratorAttributes.index g1.NestedObject.Attributes k
      = GeneratorAttributes.index g2.NestedObject.Attributes k) :
    g1.CustomTypeAndValue N name = g2.CustomTypeAndValue N name := by
  unfold Provider.GeneratorMapNestedAttribute.CustomTypeAndValue
  rw [hv, ht, ha, hc, hk]
  simp only [customTypeAndValueLoop_congr _ _ hi]

end ChildMapping

/-! ## Properties: the map-of-objects attribute of the provider surface -/

section MapNested

open Generatorschema Convert

/-- A text that starts with a non-empty text is not empty. -/
theorem append_ne_empty_left (s t : String) (h : s ≠ "") : s ++ t ≠ "" := by
  intro hst
  apply h
  have h1 : (s ++ t).data = [] := by rw [hst]
  rw [String.data_append] at h1
  exact String.ext (List.append_eq_nil.mp h1).1

/-- C16, counterexample. The MapNested element constructed from a node whose nested object
has no association and no children answers, with the sample collaborators, wrapper text
that is not nil, without error. -/
theorem map_nested_wrapper_text_without_association :
    (Provider.NewGeneratorMapNestedAttribute sampleNewAttributes "m"
        (some { NestedObject := { Attributes := [] } })).1.NestedObject.AssociatedExternalType
        = none
      ∧ (Provider.NewGeneratorMapNestedAttribute sampleNewAttributes "m"
        (some { NestedObject := { Attributes := [] } })).1.CustomTypeAndValue sampleNestedEnv "m"
        = ("\nobject type of m over \n\nobject value of m over \n", none)
      ∧ ((Provider.NewGeneratorMapNestedAttribute sampleNewAttributes "m"
        (some { NestedObject := { Attributes := [] } })).1.CustomTypeAndValue sampleNestedEnv
          "m").1 ≠ "" := by
  decide

/-- C16, amended. `CustomTypeAndValue` of a provider MapNested element emits the wrapper
text whether or not the nested object has an association: for every element and name the
result is the same under every association; and when the call succeeds and the wrapper
type text is not empty the bytes are not nil. -/
theorem map_nested_wrapper_text_ignores_association (N : NestedEnv)
    (g : Provider.GeneratorMapNestedAttribute) (name : String) (a : Option AssocExtType) :
    Provider.GeneratorMapNestedAttribute.CustomTypeAndValue N
        { g with NestedObject := { g.NestedObject with AssociatedExternalType := a } } name
        = g.CustomTypeAndValue N name
      ∧ ((g.CustomTypeAndValue N name).2 = none →
          (N.CustomNestedObjectTypeRender name
            (N.AttrValues g.NestedObject.Attributes).1).1 ≠ "" →
          (g.CustomTypeAndValue N name).1 ≠ "") := by
  refine ⟨rfl, fun hs ht => ?_⟩
  rw [mapNested_customTypeAndValue_success N g name hs, String.append_assoc]
  exact append_ne_empty_left _ _ ht

/-- C16, witness: the sample collaborators and an element without children. -/
theorem map_nested_wrapper_text_ignores_association_witness :
    Provider.GeneratorMapNestedAttribute.CustomTypeAndValue sampleNestedEnv
        { NestedObject := { AssociatedExternalType := some (sampleAssociation "*api.M") } }
        "m"
        = Provider.GeneratorMapNestedAttribute.CustomTypeAndValue sampleNestedEnv {} "m"
      ∧ (Provider.GeneratorMapNestedAttribute.CustomTypeAndValue sampleNestedEnv {} "m").1
        ≠ "" :=
  ⟨(map_nested_wrapper_text_ignores_association sampleNestedEnv {} "m"
      (some (sampleAssociation "*api.M"))).1,
   (map_nested_wrapper_text_ignores_association sampleNestedEnv {} "m"
      (some (sampleAssociation "*api.M"))).2 (by decide) (by decide)⟩

/-- C17. When `CustomTypeAndValue` of a provider MapNested element succeeds, the output is
the wrapper type text of the parent, then its wrapper value text, then the text of every
child that supports the operation, in ascending order of the child names: the keys taken
are the keys of the mapping, sorted. The output does not depend on the order in which the
bindings of the mapping are listed: an element whose mapping lists the same bindings, one
per key, in another order, and on which the aggregations agree, answers the same. -/
theorem map_nested_wrapper_text_structure (N : NestedEnv)
    (g : Provider.GeneratorMapNestedAttribute) (name : String)
    (hs : (g.CustomTypeAndValue N name).2 = none) :
    (g.CustomTypeAndValue N name).1 =
        (N.CustomNestedObjectTypeRender name (N.AttrValues g.NestedObject.Attributes).1).1
          ++ (N.CustomNestedObjectValueRender name
                (N.AttributeTypes g.NestedObject.Attributes).1
                (N.AttrTypes g.NestedObject.Attributes).1
                (N.AttrValues g.NestedObject.Attributes).1
                (N.CollectionTypes g.NestedObject.Attributes).1).1
          ++ concatTexts (g.NestedObject.Attributes.SortedKeys.map
                (childCustomTypeAndValue g.NestedObject.Attributes))
      ∧ List.Sorted (fun a b => leString a b = true) g.NestedObject.Attributes.SortedKeys
      ∧ g.NestedObject.Attributes.SortedKeys.Perm (GeneratorAttributes.keys g.NestedObject.Attributes)
      ∧ ∀ g2 : Provider.GeneratorMapNestedAttribute,
          g.NestedObject.Attributes.Perm g2.NestedObject.Attributes →
          (GeneratorAttributes.keys g.NestedObject.Attributes).Nodup →
          N.AttrValues g.NestedObject.Attributes = N.AttrValues g2.NestedObject.Attributes →
          N.AttributeTypes g.NestedObject.Attributes
            = N.AttributeTypes g2.NestedObject.Attributes →
          N.AttrTypes g.NestedObject.Attributes = N.AttrTypes g2.NestedObject.Attributes →
          N.CollectionTypes g.NestedObject.Attributes
            = N.CollectionTypes g2.NestedObject.Attributes →
          g2.CustomTypeAndValue N name = g.CustomTypeAndValue N name := by
  refine ⟨mapNested_customTypeAndValue_success N g name hs, sortStrings_sorted _,
    List.perm_insertionSort _ _, ?_⟩
  intro g2 hp hn hv ht ha hc
  symm
  apply mapNested_customTypeAndValue_congr N g g2 name hv ht ha hc
  · exact sortStrings_perm _ _ (hp.map _)
  · exact index_perm _ _ hp hn

/-- C17, witness: a mapping that lists the child `b`, with an association, before the
child `a`, without one; the text of the parent is followed by the text of `b` alone, and
the same comes out when `a` is listed first. -/
theorem map_nested_wrapper_text_structure_witness :
    Provider.GeneratorMapNestedAttribute.CustomTypeAndValue sampleNestedEnv
        { NestedObject := { Attributes := [("b", sampleChildWith), ("a", sampleChildWithout)] } }
        "m"
        = ("\nobject type of m over ab\n\nobject value of m over ab\n\nint64 type of B\n\nint32 value valuable B\n\nint32 value value B\n\nint32 value equal B\n\nint32 value type B\n", none)
      ∧ Provider.GeneratorMapNestedAttribute.CustomTypeAndValue sampleNestedEnv
        { NestedObject := { Attributes := [("a", sampleChildWithout), ("b", sampleChildWith)] } }
        "m"
        = Provider.GeneratorMapNestedAttribute.CustomTypeAndValue sampleNestedEnv
        { NestedObject := { Attributes := [("b", sampleChildWith), ("a", sampleChildWithout)] } }
        "m" :=
  ⟨by decide,
   (map_nested_wrapper_text_structure sampleNestedEnv
      { NestedObject := { Attributes := [("b", sampleChildWith), ("a", sampleChildWithout)] } }
      "m" (by decide)).2.2.2
      { NestedObject := { Attributes := [("a", sampleChildWithout), ("b", sampleChildWith)] } }
      (List.Perm.swap _ _ _) (by decide) (by decide) (by decide) (by decide) (by decide)⟩

/-- C18. `ToFromFunctions` of a provider MapNested element answers nil bytes and a nil
error when the nested object has no association. With an association, the accessor
descriptors of the children are collected first, `ToFuncs` then `FromFuncs`, and a
failure of either ends the call with nil bytes and that error before anything is
rendered; and when the call succeeds the output is the one composite bridging function of
the parent, rendered from the collected descriptors, followed by the bridging functions
of every child that supports the operation, in ascending order of the child names. -/
theorem map_nested_bridging_functions (N : NestedEnv)
    (g : Provider.GeneratorMapNestedAttribute) (name : String) (a : AssocExtType)
    (ha : g.NestedObject.AssociatedExternalType = some a) :
    Provider.GeneratorMapNestedAttribute.ToFromFunctions N
        { g with NestedObject := { g.NestedObject with AssociatedExternalType := none } } name
        = ("", none)
      ∧ (∀ err, (N.ToFuncs g.NestedObject.Attributes).2 = some err →
          g.ToFromFunctions N name = ("", some err))
      ∧ (∀ err, (N.ToFuncs g.NestedObject.Attributes).2 = none →
          (N.FromFuncs g.NestedObject.Attributes).2 = some err →
          g.ToFromFunctions N name = ("", some err))
      ∧ ((g.ToFromFunctions N name).2 = none →
          (g.ToFromFunctions N name).1 =
            (N.ToFromNestedObjectRender name a (N.ToFuncs g.NestedObject.Attributes).1
                (N.FromFuncs g.NestedObject.Attributes).1).1
              ++ concatTexts (g.NestedObject.Attributes.SortedKeys.map
                    (childToFromFunctions g.NestedObject.Attributes))) := by
  refine ⟨rfl, ?_, ?_, ?_⟩
  · intro err h1
    unfold Provider.GeneratorMapNestedAttribute.ToFromFunctions
    rw [ha]
    revert h1
    rcases N.ToFuncs g.NestedObject.Attributes with ⟨v1, e1⟩
    intro h1
    simp only at h1
    subst h1
    rfl
  · intro err h1 h2
    unfold Provider.GeneratorMapNestedAttribute.ToFromFunctions
    rw [ha]
    revert h1 h2
    rcases N.ToFuncs g.NestedObject.Attributes with ⟨v1, e1⟩
    rcases N.FromFuncs g.NestedObject.Attributes with ⟨v2, e2⟩
    intro h1 h2
    simp only at h1 h2
    subst h1 h2
    rfl
  · unfold Provider.GeneratorMapNestedAttribute.ToFromFunctions
    rw [ha]
    simp only
    rcases N.ToFuncs g.NestedObject.Attributes with ⟨v1, e1⟩
    cases e1 with
    | some err => intro h; simp at h
    | none =>
      simp only
      rcases N.FromFuncs g.NestedObject.Attributes with ⟨v2, e2⟩
      cases e2 with
      | some err => intro h; simp at h
      | none =>
        simp only
        rcases N.ToFromNestedObjectRender name a v1 v2 with ⟨b, e3⟩
        cases e3 with
        | some err => intro h; simp at h
        | none =>
          simp only
          rcases hl : Provider.toFromFunctionsLoop g.NestedObject.Attributes
            g.NestedObject.Attributes.SortedKeys b with ⟨out, e⟩
          intro h
          simp only at h
          subst h
          exact toFromFunctionsLoop_success _ _ _ _ hl

/-- C18, witness: the parent has an association to `*api.M`, the child `b` one to
`*api.B`, the child `a` none. -/
theorem map_nested_bridging_functions_witness :
    Provider.GeneratorMapNestedAttribute.ToFromFunctions sampleNestedEnv
        { NestedObject := { Attributes := [("b", sampleChildWith), ("a", sampleChildWithout)] } }
        "m" = ("", none)
      ∧ Provider.GeneratorMapNestedAttribute.ToFromFunctions sampleNestedEnv
        { NestedObject := { AssociatedExternalType := some (sampleAssociation "*api.M"),
                            Attributes := [("b", sampleChildWith), ("a", sampleChildWithout)] } }
        "m" = ("\nobject bridge of m to *api.M over ab\n\nint32 bridge of B to *api.B\n", none) :=
  ⟨(map_nested_bridging_functions sampleNestedEnv
      { NestedObject := { AssociatedExternalType := some (sampleAssociation "*api.M"),
                          Attributes := [("b", sampleChildWith), ("a", sampleChildWithout)] } }
      "m" (sampleAssociation "*api.M") rfl).1, by decide⟩

/-- C19. `Schema` of a provider MapNested element renders the fragment of the nested
object before the decorators of the element: when the nested object renders, the text is
the quoted name and the opening line, the nested object fragment, then the custom type,
requiredness, sensitivity, description, deprecation and validators fragments in this
order, then the closing line, without error; when the nested object fails to render, the
result is the empty string together with that error. -/
theorem map_nested_schema_order (wide : Char → Bool) (N : NestedEnv)
    (g : Provider.GeneratorMapNestedAttribute) (name : FrameworkIdentifier)
    (nested : String) (e : Option GoError)
    (h : N.NestedAttributeObjectSchema g.NestedAttributeObject = (nested, e)) :
    (e = none →
        g.Schema wide N name =
          (Quote wide name ++ ": schema.MapNestedAttribute\x7b\n"
            ++ nested
            ++ g.CustomType.Schema
            ++ g.OptionalRequired.Schema
            ++ g.Sensitive.Schema
            ++ g.Description.Schema wide
            ++ g.DeprecationMessage.Schema wide
            ++ g.Validators.Schema
            ++ "\x7d,", none))
      ∧ ∀ err, e = some err → g.Schema wide N name = ("", some err) := by
  constructor
  · intro he
    subst he
    simp only [Provider.GeneratorMapNestedAttribute.Schema, h]
  · intro err he
    subst he
    simp only [Provider.GeneratorMapNestedAttribute.Schema, h]

/-- C19, witness: a required element named `m` with the sample nested object fragment. -/
theorem map_nested_schema_order_witness :
    Provider.GeneratorMapNestedAttribute.Schema widePrintable sampleNestedEnv
        { NestedAttributeObject := { name := "m" },
          OptionalRequired := NewOptionalRequired "required" } "m"
      = ("\"m\": schema.MapNestedAttribute\x7b\nNestedObject: nested object of m,\nRequired: true,\n\x7d,",
          none) :=
  ((map_nested_schema_order widePrintable sampleNestedEnv
      { NestedAttributeObject := { name := "m" },
        OptionalRequired := NewOptionalRequired "required" } "m"
      "NestedObject: nested object of m,\n" none rfl).1 rfl).trans (by decide)

/-- C20. Construction of a provider MapNested element fails without a usable element in
both invalid-input cases: from a nil node the result is the zero-value element and the
error `*provider.MapNestedAttribute is nil`; when the construction of the children fails,
the result is the zero-value element and that same error. When the children are
constructed, construction succeeds and the child mapping of the nested object is exactly
the mapping the constructor of the children returned. -/
theorem map_nested_constructor {α : Type}
    (NewAttributes : α → GeneratorAttributes × Option GoError) (name : String)
    (a : Provider.MapNestedAttribute α) (attributes : GeneratorAttributes)
    (e : Option GoError) (h : NewAttributes a.NestedObject.Attributes = (attributes, e)) :
    Provider.NewGeneratorMapNestedAttribute NewAttributes name none
        = ({ OptionalRequired := { optionalRequired := "" },
             CustomType := { customType := none },
             DeprecationMessage := { deprecationMessage := none },
             Description := { description := none },
             NestedObject := { AssociatedExternalType := none, Attributes := [],
                               CustomType := none, Validators := [] },
             NestedAttributeObject := { attributes := [], customType := none,
                                        validators := { validatorType := "", custom := [] },
                                        name := "" },
             Sensitive := { sensitive := none },
             Validators := { validatorType := "", custom := [] } },
           some (GoError.errorf "*provider.MapNestedAttribute is nil"))
      ∧ (Provider.NewGeneratorMapNestedAttribute NewAttributes name none).2.map GoError.Error
          = some "*provider.MapNestedAttribute is nil"
      ∧ (∀ err, e = some err →
          Provider.NewGeneratorMapNestedAttribute NewAttributes name (some a)
            = ((Provider.NewGeneratorMapNestedAttribute NewAttributes name none).1, some err))
      ∧ (e = none →
          (Provider.NewGeneratorMapNestedAttribute NewAttributes name (some a)).2 = none
            ∧ (Provider.NewGeneratorMapNestedAttribute NewAttributes name
                (some a)).1.NestedObject.Attributes = attributes) := by
  refine ⟨rfl, rfl, ?_, ?_⟩
  · intro err he
    subst he
    simp only [Provider.NewGeneratorMapNestedAttribute, h]
  · intro he
    subst he
    simp only [Provider.NewGeneratorMapNestedAttribute, h, and_self]

/-- C20, witness: a node whose second child has no kind, so that the construction of the
children fails, and the node without that child, which is constructed. -/
theorem map_nested_constructor_witness :
    Provider.NewGeneratorMapNestedAttribute sampleNewAttributes "m"
        (some { NestedObject := { Attributes := [("a", some {}), ("b", none)] } })
        = ((Provider.NewGeneratorMapNestedAttribute sampleNewAttributes "m" none).1,
            some (GoError.errorf "attribute type not defined: b"))
      ∧ (Provider.NewGeneratorMapNestedAttribute sampleNewAttributes "m"
          (some { NestedObject := { Attributes := [("a", some {})] } })).2 = none
      ∧ GeneratorAttributes.keys (Provider.NewGeneratorMapNestedAttribute sampleNewAttributes
          "m" (some { NestedObject := { Attributes := [("a", some {})] } })).1.NestedObject.Attributes
          = ["a"] :=
  ⟨(map_nested_constructor sampleNewAttributes "m"
      { NestedObject := { Attributes := [("a", some {}), ("b", none)] } } []
      (some (GoError.errorf "attribute type not defined: b")) rfl).2.2.1 _ rfl,
   ((map_nested_constructor sampleNewAttributes "m"
      { NestedObject := { Attributes := [("a", some {})] } } _ none rfl).2.2.2 rfl).1,
   by decide⟩

end MapNested

/-! ## Properties: rendering of the wrapper types -/

section Rendering

open Generatorschema Convert

/-- The render loop answers nil bytes and the first error when a render function fails. -/
theorem renderLoop_of_firstError (fs : List (String × Option GoError)) (buf : String)
    (err : GoError) (h : firstError fs = some err) : renderLoop fs buf = ("", some err) := by
  induction fs generalizing buf with
  | nil => simp [firstError] at h
  | cons f fs ih =>
    rcases f with ⟨b, e⟩
    cases e with
    | some e2 =>
      simp only [firstError, Option.some.injEq] at h
      simp only [renderLoop, h]
    | none =>
      simp only [firstError] at h
      simp only [renderLoop]
      exact ih _ h

/-- The render loop writes a newline and the text of every render function when all of
them render. -/
theorem renderLoop_of_no_error (fs : List (String × Option GoError)) (buf : String)
    (h : firstError fs = none) : renderLoop fs buf = (buf ++ newlineEach fs, none) := by
  induction fs generalizing buf with
  | nil => simp [renderLoop, newlineEach]
  | cons f fs ih =>
    rcases f with ⟨b, e⟩
    cases e with
    | some e2 => simp [firstError] at h
    | none =>
      simp only [firstError] at h
      simp only [renderLoop, newlineEach, ih _ h, String.append_assoc]

/-- A template that does not parse renders to nil bytes and the error of the parser. -/
theorem renderTemplate_parse_error (E : Env) (source : String) (name : FrameworkIdentifier)
    (err : GoError) (h : E.Parse source = some err) :
    renderTemplate E source name = ("", some err) := by
  simp only [renderTemplate, h]

/-- A template that parses and fails to execute renders to nil bytes and that error. -/
theorem renderTemplate_execute_error (E : Env) (source : String) (name : FrameworkIdentifier)
    (out : String) (err : GoError) (hp : E.Parse source = none)
    (h : E.Execute source (FrameworkIdentifier.ToPascalCase name) = (out, some err)) :
    renderTemplate E source name = ("", some err) := by
  simp only [renderTemplate, hp, h]

/-- C21. No partial text on a render failure. A template that fails to parse or to
execute renders to nil bytes and that error; when a template of the wrapper type or of
the wrapper value fails, `Render` answers nil bytes and the error of the first template
that fails, not the text of the templates rendered before it; and for a resource Int32
element with an association, `CustomTypeAndValue` answers nil bytes and the error when
the wrapper type fails, and when the wrapper type renders and the wrapper value fails. -/
theorem render_failure_no_partial_text (E : Env) (g : Resource.GeneratorInt32Attribute)
    (name : String) (a : AssocExtType) (err : GoError) :
    (∀ source : String, E.Parse source = some err →
        renderTemplate E source name = ("", some err))
      ∧ (∀ (source out : String), E.Parse source = none →
          E.Execute source (FrameworkIdentifier.ToPascalCase name) = (out, some err) →
          renderTemplate E source name = ("", some err))
      ∧ (firstError
            [(NewCustomInt32Type E name).renderTypable E, (NewCustomInt32Type E name).renderType E,
             (NewCustomInt32Type E name).renderEqual E, (NewCustomInt32Type E name).renderString E,
             (NewCustomInt32Type E name).renderValueFromInt32 E,
             (NewCustomInt32Type E name).renderValueFromTerraform E,
             (NewCustomInt32Type E name).renderValueType E] = some err →
          (NewCustomInt32Type E name).Render E = ("", some err))
      ∧ (firstError
            [(NewCustomInt32Value E name).renderValuable E,
             (NewCustomInt32Value E name).renderValue E,
             (NewCustomInt32Value E name).renderEqual E,
             (NewCustomInt32Value E name).renderType E] = some err →
          (NewCustomInt32Value E name).Render E = ("", some err))
      ∧ (((NewCustomInt32Type E name).Render E).2 = some err →
          Resource.GeneratorInt32Attribute.CustomTypeAndValue E
            { g with AssociatedExternalType := some a } name = ("", some err))
      ∧ (((NewCustomInt32Type E name).Render E).2 = none →
          ((NewCustomInt32Value E name).Render E).2 = some err →
          Resource.GeneratorInt32Attribute.CustomTypeAndValue E
            { g with AssociatedExternalType := some a } name = ("", some err)) := by
  refine ⟨fun source h => renderTemplate_parse_error E source name err h,
    fun source out hp h => renderTemplate_execute_error E source name out err hp h,
    fun h => renderLoop_of_firstError _ _ _ h, fun h => renderLoop_of_firstError _ _ _ h,
    ?_, ?_⟩
  · simp only [Resource.GeneratorInt32Attribute.CustomTypeAndValue]
    rcases (NewCustomInt32Type E name).Render E with ⟨b, e⟩
    intro h
    have h' : e = some err := h
    subst h'
    rfl
  · simp only [Resource.GeneratorInt32Attribute.CustomTypeAndValue]
    rcases (NewCustomInt32Type E name).Render E with ⟨b, e⟩
    rcases (NewCustomInt32Value E name).Render E with ⟨b2, e2⟩
    intro h1 h2
    have h1' : e = none := h1
    have h2' : e2 = some err := h2
    subst h1' h2'
    rfl

/-- C21, witness: with the sample templates of which the third one of the wrapper type
does not parse, the wrapper type renders to nil bytes and the error of the parser, and so
does `CustomTypeAndValue` of an element with an association. -/
theorem render_failure_no_partial_text_witness :
    (NewCustomInt32Type sampleFailingEnv "int32_attribute").Render sampleFailingEnv
        = ("", some (GoError.errorf "template: unexpected EOF"))
      ∧ Resource.GeneratorInt32Attribute.CustomTypeAndValue sampleFailingEnv
          { AssociatedExternalType := some (sampleAssociation "*api.Int32") } "int32_attribute"
        = ("", some (GoError.errorf "template: unexpected EOF")) :=
  ⟨(render_failure_no_partial_text sampleFailingEnv {} "int32_attribute"
      (sampleAssociation "*api.Int32") (GoError.errorf "template: unexpected EOF")).2.2.1
      (by decide),
   (render_failure_no_partial_text sampleFailingEnv {} "int32_attribute"
      (sampleAssociation "*api.Int32") (GoError.errorf "template: unexpected EOF")).2.2.2.2.1
      (by decide)⟩

/-- A template that parses and executes renders to the bytes the execution wrote. -/
theorem renderTemplate_ok (E : Env) (source : String) (name : FrameworkIdentifier)
    (hp : E.Parse source = none)
    (he : (E.Execute source (FrameworkIdentifier.ToPascalCase name)).2 = none) :
    renderTemplate E source name
      = ((E.Execute source (FrameworkIdentifier.ToPascalCase name)).1, none) := by
  unfold renderTemplate
  rw [hp]
  revert he
  rcases E.Execute source (FrameworkIdentifier.ToPascalCase name) with ⟨out, e⟩
  intro he
  have he' : e = none := he
  subst he'
  rfl

/-- C28. For a name on which all templates render, `CustomInt32Type.Render` answers a
newline followed by the rendered template, for the seven templates typable, type, equal,
string, valueFromInt32, valueFromTerraform, valueType in this order, and
`CustomInt32Value.Render` the same for the four templates valuable, value, equal, type;
every template is executed on the one value `Name`, the capitalized form of the name. -/
theorem render_is_newline_separated_templates (E : Env) (name : String)
    (h : ∀ source ∈
        [E.Int32TypeTypableTemplate, E.Int32TypeTypeTemplate, E.Int32TypeEqualTemplate,
         E.Int32TypeStringTemplate, E.Int32TypeValueFromInt32Template,
         E.Int32TypeValueFromTerraformTemplate, E.Int32TypeValueTypeTemplate,
         E.Int32ValueValuableTemplate, E.Int32ValueValueTemplate, E.Int32ValueEqualTemplate,
         E.Int32ValueTypeTemplate],
        E.Parse source = none
          ∧ (E.Execute source (FrameworkIdentifier.ToPascalCase name)).2 = none) :
    (NewCustomInt32Type E name).Render E =
        ("\n" ++ (E.Execute E.Int32TypeTypableTemplate (FrameworkIdentifier.ToPascalCase name)).1
          ++ "\n" ++ (E.Execute E.Int32TypeTypeTemplate (FrameworkIdentifier.ToPascalCase name)).1
          ++ "\n" ++ (E.Execute E.Int32TypeEqualTemplate (FrameworkIdentifier.ToPascalCase name)).1
          ++ "\n" ++ (E.Execute E.Int32TypeStringTemplate (FrameworkIdentifier.ToPascalCase name)).1
          ++ "\n" ++ (E.Execute E.Int32TypeValueFromInt32Template
                (FrameworkIdentifier.ToPascalCase name)).1
          ++ "\n" ++ (E.Execute E.Int32TypeValueFromTerraformTemplate
                (FrameworkIdentifier.ToPascalCase name)).1
          ++ "\n" ++ (E.Execute E.Int32TypeValueTypeTemplate
                (FrameworkIdentifier.ToPascalCase name)).1, none)
      ∧ (NewCustomInt32Value E name).Render E =
        ("\n" ++ (E.Execute E.Int32ValueValuableTemplate
                (FrameworkIdentifier.ToPascalCase name)).1
          ++ "\n" ++ (E.Execute E.Int32ValueValueTemplate (FrameworkIdentifier.ToPascalCase name)).1
          ++ "\n" ++ (E.Execute E.Int32ValueEqualTemplate (FrameworkIdentifier.ToPascalCase name)).1
          ++ "\n" ++ (E.Execute E.Int32ValueTypeTemplate (FrameworkIdentifier.ToPascalCase name)).1,
          none) := by
  have ok : ∀ source ∈
      [E.Int32TypeTypableTemplate, E.Int32TypeTypeTemplate, E.Int32TypeEqualTemplate,
       E.Int32TypeStringTemplate, E.Int32TypeValueFromInt32Template,
       E.Int32TypeValueFromTerraformTemplate, E.Int32TypeValueTypeTemplate,
       E.Int32ValueValuableTemplate, E.Int32ValueValueTemplate, E.Int32ValueEqualTemplate,
       E.Int32ValueTypeTemplate],
      renderTemplate E source name
        = ((E.Execute source (FrameworkIdentifier.ToPascalCase name)).1, none) :=
    fun source hs => renderTemplate_ok E source name (h source hs).1 (h source hs).2
  have t1 : (NewCustomInt32Type E name).renderTypable E = _ :=
    ok E.Int32TypeTypableTemplate (by simp)
  have t2 : (NewCustomInt32Type E name).renderType E = _ :=
    ok E.Int32TypeTypeTemplate (by simp)
  have t3 : (NewCustomInt32Type E name).renderEqual E = _ :=
    ok E.Int32TypeEqualTemplate (by simp)
  have t4 : (NewCustomInt32Type E name).renderString E = _ :=
    ok E.Int32TypeStringTemplate (by simp)
  have t5 : (NewCustomInt32Type E name).renderValueFromInt32 E = _ :=
    ok E.Int32TypeValueFromInt32Template (by simp)
  have t6 : (NewCustomInt32Type E name).renderValueFromTerraform E = _ :=
    ok E.Int32TypeValueFromTerraformTemplate (by simp)
  have t7 : (NewCustomInt32Type E name).renderValueType E = _ :=
    ok E.Int32TypeValueTypeTemplate (by simp)
  have v1 : (NewCustomInt32Value E name).renderValuable E = _ :=
    ok E.Int32ValueValuableTemplate (by simp)
  have v2 : (NewCustomInt32Value E name).renderValue E = _ :=
    ok E.Int32ValueValueTemplate (by simp)
  have v3 : (NewCustomInt32Value E name).renderEqual E = _ :=
    ok E.Int32ValueEqualTemplate (by simp)
  have v4 : (NewCustomInt32Value E name).renderType E = _ :=
    ok E.Int32ValueTypeTemplate (by simp)
  constructor
  · simp only [CustomInt32Type.Render, t1, t2, t3, t4, t5, t6, t7, renderLoop,
      String.empty_append]
  · simp only [CustomInt32Value.Render, v1, v2, v3, v4, renderLoop, String.empty_append]

set_option maxRecDepth 100000

/-- C28, witness: the sample templates, which all render, and the name
`int32_attribute`. -/
theorem render_is_newline_separated_templates_witness :
    (NewCustomInt32Type sampleEnv "int32_attribute").Render sampleEnv
        = ("\nint32 type typable Int32Attribute\n\nint32 type type Int32Attribute\n\nint32 type equal Int32Attribute\n\nint32 type string Int32Attribute\n\nint32 type valueFromInt32 Int32Attribute\n\nint32 type valueFromTerraform Int32Attribute\n\nint32 type valueType Int32Attribute\n", none)
      ∧ (NewCustomInt32Value sampleEnv "int32_attribute").Render sampleEnv
        = ("\nint32 value valuable Int32Attribute\n\nint32 value value Int32Attribute\n\nint32 value equal Int32Attribute\n\nint32 value type Int32Attribute\n", none) :=
  ⟨(render_is_newline_separated_templates sampleEnv "int32_attribute"
      (fun _ _ => ⟨rfl, rfl⟩)).1.trans (by decide),
   (render_is_newline_separated_templates sampleEnv "int32_attribute"
      (fun _ _ => ⟨rfl, rfl⟩)).2.trans (by decide)⟩

/-- C30. The rendered wrapper text depends on the name only through its capitalized form:
two names with the same capitalized form give the same result of `Render`, bytes and
error, for the wrapper type and for the wrapper value; in particular rendering a name
twice gives the same result. -/
theorem render_depends_on_capitalized_name (E : Env) (n1 n2 : String)
    (h : FrameworkIdentifier.ToPascalCase n1 = FrameworkIdentifier.ToPascalCase n2) :
    (NewCustomInt32Type E n1).Render E = (NewCustomInt32Type E n2).Render E
      ∧ (NewCustomInt32Value E n1).Render E = (NewCustomInt32Value E n2).Render E := by
  constructor
  · simp only [CustomInt32Type.Render, CustomInt32Type.renderTypable,
      CustomInt32Type.renderType, CustomInt32Type.renderEqual, CustomInt32Type.renderString,
      CustomInt32Type.renderValueFromInt32, CustomInt32Type.renderValueFromTerraform,
      CustomInt32Type.renderValueType, NewCustomInt32Type, renderTemplate, h]
  · simp only [CustomInt32Value.Render, CustomInt32Value.renderValuable,
      CustomInt32Value.renderValue, CustomInt32Value.renderEqual, CustomInt32Value.renderType,
      NewCustomInt32Value, renderTemplate, h]

/-- C30, witness: the names `int32_attribute` and `Int32_attribute` have the capitalized
form `Int32Attribute`. -/
theorem render_depends_on_capitalized_name_witness :
    FrameworkIdentifier.ToPascalCase "int32_attribute" = "Int32Attribute"
      ∧ FrameworkIdentifier.ToPascalCase "Int32_attribute" = "Int32Attribute"
      ∧ (NewCustomInt32Type sampleEnv "int32_attribute").Render sampleEnv
          = (NewCustomInt32Type sampleEnv "Int32_attribute").Render sampleEnv
      ∧ (NewCustomInt32Value sampleEnv "int32_attribute").Render sampleEnv
          = (NewCustomInt32Value sampleEnv "Int32_attribute").Render sampleEnv :=
  ⟨by decide, by decide,
   (render_depends_on_capitalized_name sampleEnv "int32_attribute" "Int32_attribute"
      (by decide)).1,
   (render_depends_on_capitalized_name sampleEnv "int32_attribute" "Int32_attribute"
      (by decide)).2⟩

end Rendering

/-! ## Properties: the default decorator -/

section DefaultDecorator

open Generatorschema Convert

/-- C27. `DefaultInt32.Schema` is decided by the static default first: with a static
value `n` the result is the line `Default: int32default.StaticInt32(n),` with `n` in
signed decimal, whether or not a custom default is set, also for negative values and for
the extremes of the 32-bit range; without a static value and with a custom default the
result is the line `Default: s,` of its schema definition `s` when that is not empty,
and empty otherwise; and it is empty for a nil default and for a default with neither. -/
theorem default_schema_cases (n : Int) (c : Option Specschema.CustomDefault)
    (is : List Code.Import) (s : String) :
    (NewDefaultInt32 (some { Custom := c, Static := some n })).Schema
        = "Default: int32default.StaticInt32(" ++ fmtD n ++ "),\n"
      ∧ (NewDefaultInt32 (some { Static := some (-2147483648) })).Schema
        = "Default: int32default.StaticInt32(-2147483648),\n"
      ∧ (NewDefaultInt32 (some { Static := some 2147483647 })).Schema
        = "Default: int32default.StaticInt32(2147483647),\n"
      ∧ (NewDefaultInt32 (some { Static := some (-5) })).Schema
        = "Default: int32default.StaticInt32(-5),\n"
      ∧ (NewDefaultInt32 (some { Static := some 0 })).Schema
        = "Default: int32default.StaticInt32(0),\n"
      ∧ (NewDefaultInt32
          (some { Custom := some { Imports := is, SchemaDefinition := s }, Static := none })).Schema
        = (if s ≠ "" then "Default: " ++ s ++ ",\n" else "")
      ∧ (NewDefaultInt32 none).Schema = ""
      ∧ (NewDefaultInt32 (some { Custom := none, Static := none })).Schema = "" :=
  ⟨rfl, by decide, by decide, by decide, by decide, rfl, rfl, rfl⟩

/-- The loop over the imports of a custom default adds the ones with a non-empty path. -/
theorem foldl_addNonEmpty_eq (l : List Code.Import) (acc : Imports) :
    l.foldl addNonEmpty acc
      = (l.filter (fun i => decide (i.Path.length > 0))).foldl Imports.Add acc := by
  induction l generalizing acc with
  | nil => rfl
  | cons x xs ih =>
    rw [List.foldl_cons, ih]
    by_cases hx : x.Path.length > 0
    · simp [addNonEmpty, hx, List.filter_cons]
    · simp [addNonEmpty, hx, List.filter_cons]

/-- C29, counterexample. A custom default with an empty schema definition contributes its
declaration although the schema text is empty, and next to a static default it
contributes its declaration although the schema text is the static line alone. -/
theorem default_custom_imports_without_text :
    (NewDefaultInt32 (some { Custom := some sampleCustomDefaultNoText })).Schema = ""
      ∧ (NewDefaultInt32 (some { Custom := some sampleCustomDefaultNoText })).Imports.All
        = [{ Path := "github.com/myproject/mydefaults/default" }]
      ∧ (NewDefaultInt32
          (some { Custom := some sampleCustomDefault, Static := some 1234 })).Schema
        = "Default: int32default.StaticInt32(1234),\n"
      ∧ (NewDefaultInt32
          (some { Custom := some sampleCustomDefault, Static := some 1234 })).Imports.All
        = [{ Path := defaultInt32Import }, { Path := "github.com/.../my_default" }] := by
  decide

/-- C29, amended. The imports of the default decorator are decided by what is set, not by
what the schema text holds: they are the ordered-set reading of the static-default
package declaration, when a static default is set, followed by the declarations with a
non-empty path of the custom default, when a custom default is set, whatever its schema
definition and whether or not a static default is set; a nil default has none. -/
theorem default_imports_by_what_is_set (st : Option Int) (cu : Option Specschema.CustomDefault) :
    (NewDefaultInt32 (some { Custom := cu, Static := st })).Imports.All
        = dedupByPath
            ((match st with
              | some _ => [{ Path := defaultInt32Import }]
              | none => [])
             ++ (match cu with
                 | some c => c.Imports.filter (fun i => decide (i.Path.length > 0))
                 | none => []))
      ∧ (NewDefaultInt32 none).Imports.All = [] := by
  refine ⟨?_, rfl⟩
  have hpkg : NewImports.Add { Path := defaultInt32Import }
      = [({ Path := defaultInt32Import } : Code.Import)].foldl Imports.Add NewImports := rfl
  cases st with
  | none =>
    cases cu with
    | none => rfl
    | some c =>
      simp only [NewDefaultInt32, DefaultInt32.Imports, Imports.All, foldl_addNonEmpty_eq,
        foldl_add_empty, List.nil_append]
  | some n =>
    cases cu with
    | none => rfl
    | some c =>
      simp only [NewDefaultInt32, DefaultInt32.Imports, Imports.All, foldl_addNonEmpty_eq,
        hpkg, ← List.foldl_append, foldl_add_empty]

end DefaultDecorator

/-! ## Properties: schema assembly of the data-source surface -/

section Assembly

open Generatorschema Convert Datasource

/-- C22. For an attribute node in which none of the fourteen kind selectors is populated,
which is a node given by its name alone, `NewAttribute` answers a nil element and an
error whose message is `attribute type not defined: ` followed by the rendering of the
node; for a block node in which none of the three selectors is populated, `NewBlock`
answers a nil element and an error whose message is `block type not defined: ` followed
by the rendering of the node. -/
theorem no_kind_is_error {ν γ β : Type} (K : Kinds ν γ β) (name : String) :
    NewAttribute K { Name := name }
        = (none, some (GoError.errorf
            ("attribute type not defined: " ++ K.formatAttribute { Name := name })))
      ∧ (NewAttribute K { Name := name }).2.map GoError.Error
        = some ("attribute type not defined: " ++ K.formatAttribute { Name := name })
      ∧ NewBlock K { Name := name }
        = (none, some (GoError.errorf
            ("block type not defined: " ++ K.formatBlock { Name := name })))
      ∧ (NewBlock K { Name := name }).2.map GoError.Error
        = some ("block type not defined: " ++ K.formatBlock { Name := name }) :=
  ⟨rfl, rfl, rfl, rfl⟩

/-- C23, counterexample. For the node named `x` in which both the Bool and the String
selector are populated, with the sample constructors, `NewAttribute` answers the element
of the Bool constructor and no error. -/
theorem two_kinds_is_no_error :
    NewAttribute sampleKinds { Name := "x", Bool := some (), String := some () }
      = (some "bool attribute x", none) := by
  decide

/-- C23, amended. `NewAttribute` hands a node to the constructor of the first populated
selector in the order Bool, Float64, Int32, Int64, List, ListNested, Map, MapNested,
Number, Object, Set, SetNested, SingleNested, String, and answers the element and the
error of that constructor, whatever the selectors after it hold. -/
theorem first_populated_kind_wins {ν γ β : Type} (K : Kinds ν γ β) (a : Attribute ν) (n : ν) :
    NewAttribute K { a with Bool := some n }
        = asInterface (K.NewGeneratorBoolAttribute a.Name n)
      ∧ NewAttribute K { a with Bool := none, Float64 := some n }
        = asInterface (K.NewGeneratorFloat64Attribute a.Name n)
      ∧ NewAttribute K { a with Bool := none, Float64 := none, Int32 := some n }
        = asInterface (K.NewGeneratorInt32Attribute a.Name n)
      ∧ NewAttribute K { a with Bool := none, Float64 := none, Int32 := none, Int64 := some n }
        = asInterface (K.NewGeneratorInt64Attribute a.Name n)
      ∧ NewAttribute K { a with Bool := none, Float64 := none, Int32 := none, Int64 := none,
                                List := some n }
        = asInterface (K.NewGeneratorListAttribute a.Name n)
      ∧ NewAttribute K { a with Bool := none, Float64 := none, Int32 := none, Int64 := none,
                                List := none, ListNested := some n }
        = asInterface (K.NewGeneratorListNestedAttribute a.Name n)
      ∧ NewAttribute K { a with Bool := none, Float64 := none, Int32 := none, Int64 := none,
                                List := none, ListNested := none, Map := some n }
        = asInterface (K.NewGeneratorMapAttribute a.Name n)
      ∧ NewAttribute K { a with Bool := none, Float64 := none, Int32 := none, Int64 := none,
                                List := none, ListNested := none, Map := none,
                                MapNested := some n }
        = asInterface (K.NewGeneratorMapNestedAttribute a.Name n)
      ∧ NewAttribute K { a with Bool := none, Float64 := none, Int32 := none, Int64 := none,
                                List := none, ListNested := none, Map := none,
                                MapNested := none, Number := some n }
        = asInterface (K.NewGeneratorNumberAttribute a.Name n)
      ∧ NewAttribute K { a with Bool := none, Float64 := none, Int32 := none, Int64 := none,
                                List := none, ListNested := none, Map := none,
                                MapNested := none, Number := none, Object := some n }
        = asInterface (K.NewGeneratorObjectAttribute a.Name n)
      ∧ NewAttribute K { a with Bool := none, Float64 := none, Int32 := none, Int64 := none,
                                List := none, ListNested := none, Map := none,
                                MapNested := none, Number := none, Object := none,
                                Set := some n }
        = asInterface (K.NewGeneratorSetAttribute a.Name n)
      ∧ NewAttribute K { a with Bool := none, Float64 := none, Int32 := none, Int64 := none,
                                List := none, ListNested := none, Map := none,
                                MapNested := none, Number := none, Object := none,
                                Set := none, SetNested := some n }
        = asInterface (K.NewGeneratorSetNestedAttribute a.Name n)
      ∧ NewAttribute K { a with Bool := none, Float64 := none, Int32 := none, Int64 := none,
                                List := none, ListNested := none, Map := none,
                                MapNested := none, Number := none, Object := none,
                                Set := none, SetNested := none, SingleNested := some n }
        = asInterface (K.NewGeneratorSingleNestedAttribute a.Name n)
      ∧ NewAttribute K { a with Bool := none, Float64 := none, Int32 := none, Int64 := none,
                                List := none, ListNested := none, Map := none,
                                MapNested := none, Number := none, Object := none,
                                Set := none, SetNested := none, SingleNested := none,
                                String := some n }
        = asInterface (K.NewGeneratorStringAttribute a.Name n) :=
  ⟨rfl, rfl, rfl, rfl, rfl, rfl, rfl, rfl, rfl, rfl, rfl, rfl, rfl, rfl⟩

/-- The loop over the attribute nodes ends with the error of the first node that fails. -/
theorem attributesLoop_error {ν γ β : Type} (K : Kinds ν γ β) (pre : List (Attribute ν))
    (v : Attribute ν) (post : List (Attribute ν)) (m : List (String × Option γ))
    (err : GoError) (hpre : ∀ x ∈ pre, (NewAttribute K x).2 = none)
    (hv : (NewAttribute K v).2 = some err) :
    (attributesLoop K (pre ++ v :: post) m).2 = some err := by
  induction pre generalizing m with
  | nil =>
    simp only [List.nil_append, attributesLoop]
    revert hv
    rcases NewAttribute K v with ⟨a, e⟩
    intro hv
    have hv' : e = some err := hv
    subst hv'
    rfl
  | cons x pre ih =>
    have hx := hpre x (List.mem_cons_self x pre)
    simp only [List.cons_append, attributesLoop]
    revert hx
    rcases NewAttribute K x with ⟨a, e⟩
    intro hx
    have hx' : e = none := hx
    subst hx'
    exact ih _ (fun y hy => hpre y (List.mem_cons_of_mem x hy))

/-- C24, counterexample. For the collection of the valid node `a` and the node `b`
without kind, with the sample constructors, `NewAttributes` answers the empty mapping and
the error of `b`: the element of the valid sibling `a` is not in the mapping. -/
theorem invalid_node_drops_siblings :
    (NewAttribute sampleKinds { Name := "a", Int32 := some () })
        = (some "int32 attribute a", none)
      ∧ NewAttributes sampleKinds [{ Name := "a", Int32 := some () }, { Name := "b" }]
        = ([], some (GoError.errorf "attribute type not defined: b"))
      ∧ mapLookup
          (NewAttributes sampleKinds [{ Name := "a", Int32 := some () }, { Name := "b" }]).1 "a"
        = none := by
  decide

/-- C24, amended. When a node of an attribute collection fails and the nodes before it are
constructed, `NewAttributes` answers the empty mapping together with the error of that
node: no element of a sibling is returned, be it listed before or after the node. -/
theorem invalid_node_gives_empty_mapping {ν γ β : Type} (K : Kinds ν γ β)
    (pre : List (Attribute ν)) (v : Attribute ν) (post : List (Attribute ν)) (err : GoError)
    (hpre : ∀ x ∈ pre, (NewAttribute K x).2 = none)
    (hv : (NewAttribute K v).2 = some err) :
    NewAttributes K (pre ++ v :: post) = ([], some err)
      ∧ ∀ k, mapLookup (NewAttributes K (pre ++ v :: post)).1 k = none := by
  have h := attributesLoop_error K pre v post [] err hpre hv
  have h2 : NewAttributes K (pre ++ v :: post) = ([], some err) := by
    unfold NewAttributes
    revert h
    rcases attributesLoop K (pre ++ v :: post) [] with ⟨m, e⟩
    intro h
    have h' : e = some err := h
    subst h'
    rfl
  refine ⟨h2, fun k => ?_⟩
  rw [h2]
  rfl

/-- C24, witness: the valid node `a`, the node `b` without kind, the valid node `c`. -/
theorem invalid_node_gives_empty_mapping_witness :
    NewAttributes sampleKinds
        ([{ Name := "a", Int32 := some () }] ++ { Name := "b" } :: [{ Name := "c", Bool := some () }])
      = ([], some (GoError.errorf "attribute type not defined: b")) :=
  (invalid_node_gives_empty_mapping sampleKinds [{ Name := "a", Int32 := some () }]
    { Name := "b" } [{ Name := "c", Bool := some () }]
    (GoError.errorf "attribute type not defined: b") (by decide) (by decide)).1

/-- C25, the code at the failing input. For the data source with the valid attribute `a`
and the block `b` without kind, with the sample constructors, `NewSchema` answers the
error of the block together with a schema that holds the attribute mapping with `a`, not
the zero value. -/
theorem block_failure_keeps_attributes :
    (NewSchema sampleKinds
        { Name := "d",
          Schema := { Attributes := [{ Name := "a", Int32 := some () }],
                      Blocks := [{ Name := "b" }] } }).2
        = some (GoError.errorf "block type not defined: b")
      ∧ (NewSchema sampleKinds
        { Name := "d",
          Schema := { Attributes := [{ Name := "a", Int32 := some () }],
                      Blocks := [{ Name := "b" }] } }).1.Attributes
        = [("a", some "int32 attribute a")]
      ∧ (NewSchema sampleKinds
        { Name := "d",
          Schema := { Attributes := [{ Name := "a", Int32 := some () }],
                      Blocks := [{ Name := "b" }] } }).1.Attributes
        ≠ ({} : GeneratorSchema String String).Attributes := by
  decide

/-- Reading a map after an assignment. -/
theorem mapLookup_mapAssign {β : Type} (m : List (String × β)) (k k2 : String) (v : β) :
    mapLookup (mapAssign m k v) k2 = if k = k2 then some v else mapLookup m k2 := by
  induction m with
  | nil => simp [mapAssign, mapLookup]
  | cons x xs ih =>
    rcases x with ⟨kx, vx⟩
    by_cases h : kx = k
    · subst h
      by_cases h2 : kx = k2 <;> simp [mapAssign, mapLookup, h2]
    · by_cases h2 : k = k2
      · subst h2
        simp [mapAssign, mapLookup, h, ih]
      · simp [mapAssign, mapLookup, h, ih, h2]

/-- Keys of a map after an assignment. -/
theorem mem_mapKeys_mapAssign {β : Type} (m : List (String × β)) (k k2 : String) (v : β) :
    k2 ∈ mapKeys (mapAssign m k v) ↔ k2 = k ∨ k2 ∈ mapKeys m := by
  induction m with
  | nil => simp [mapAssign, mapKeys]
  | cons x xs ih =>
    rcases x with ⟨kx, vx⟩
    by_cases h : kx = k
    · subst h
      simp [mapAssign, mapKeys]
    · simp only [mapKeys] at ih
      simp only [mapAssign, h, if_false, mapKeys, List.map_cons, List.mem_cons, ih]
      tauto

/-- An assignment keeps the keys of a map distinct. -/
theorem nodup_mapKeys_mapAssign {β : Type} (m : List (String × β)) (k : String) (v : β)
    (h : (mapKeys m).Nodup) : (mapKeys (mapAssign m k v)).Nodup := by
  induction m with
  | nil => simp [mapAssign, mapKeys]
  | cons x xs ih =>
    rcases x with ⟨kx, vx⟩
    simp only [mapKeys, List.map_cons, List.nodup_cons] at h
    by_cases hk : kx = k
    · subst hk
      simpa [mapAssign, mapKeys] using h
    · have hmem := mem_mapKeys_mapAssign xs k kx v
      simp only [mapAssign, hk, if_false, mapKeys, List.map_cons, List.nodup_cons]
      refine ⟨?_, ih h.2⟩
      intro hin
      rcases hmem.mp hin with h1 | h1
      · exact hk h1
      · exact h.1 h1

/-- The loop of `NewSchemas` ends with the nil map and the error of the first data source
that fails. -/
theorem schemasLoop_error {ν γ β : Type} (K : Kinds ν γ β) (pre : List (DataSource ν))
    (v : DataSource ν) (post : List (DataSource ν)) (m : List (String × GeneratorSchema γ β))
    (err : GoError) (hpre : ∀ x ∈ pre, (NewSchema K x).2 = none)
    (hv : (NewSchema K v).2 = some err) :
    schemasLoop K (pre ++ v :: post) m = ([], some err) := by
  induction pre generalizing m with
  | nil =>
    simp only [List.nil_append, schemasLoop]
    revert hv
    rcases NewSchema K v with ⟨a, e⟩
    intro hv
    have hv' : e = some err := hv
    subst hv'
    rfl
  | cons x pre ih =>
    have hx := hpre x (List.mem_cons_self x pre)
    simp only [List.cons_append, schemasLoop]
    revert hx
    rcases NewSchema K x with ⟨a, e⟩
    intro hx
    have hx' : e = none := hx
    subst hx'
    exact ih _ (fun y hy => hpre y (List.mem_cons_of_mem x hy))

/-- The loop of `NewSchemas`, when every data source is assembled, assigns every schema
under the name of its data source, in list order. -/
theorem schemasLoop_success {ν γ β : Type} (K : Kinds ν γ β) (l : List (DataSource ν))
    (m : List (String × GeneratorSchema γ β)) (h : ∀ x ∈ l, (NewSchema K x).2 = none) :
    schemasLoop K l m
      = (l.foldl (fun acc v => mapAssign acc v.Name (NewSchema K v).1) m, none) := by
  induction l generalizing m with
  | nil => rfl
  | cons x xs ih =>
    have hx := h x (List.mem_cons_self x xs)
    simp only [schemasLoop, List.foldl_cons]
    rw [← ih _ (fun y hy => h y (List.mem_cons_of_mem x hy))]
    revert hx
    rcases NewSchema K x with ⟨a, e⟩
    intro hx
    have hx' : e = none := hx
    subst hx'
    rfl

/-- After the assignments, a name reads as the schema of the last data source that
carries it. -/
theorem foldl_mapAssign_lookup {ν γ β : Type} (K : Kinds ν γ β) (l : List (DataSource ν))
    (m : List (String × GeneratorSchema γ β)) (k : String) :
    mapLookup (l.foldl (fun acc v => mapAssign acc v.Name (NewSchema K v).1) m) k
      = (match lastWithName l k with
         | some w => some (NewSchema K w).1
         | none => mapLookup m k) := by
  induction l generalizing m with
  | nil => rfl
  | cons x xs ih =>
    rw [List.foldl_cons, ih]
    simp only [lastWithName]
    cases lastWithName xs k with
    | some w => rfl
    | none =>
      simp only [mapLookup_mapAssign]
      by_cases hx : x.Name = k <;> simp [hx]

/-- After the assignments, the keys are the keys before and the names assigned. -/
theorem foldl_mapAssign_keys {ν γ β : Type} (K : Kinds ν γ β) (l : List (DataSource ν))
    (m : List (String × GeneratorSchema γ β)) (k : String) :
    k ∈ mapKeys (l.foldl (fun acc v => mapAssign acc v.Name (NewSchema K v).1) m)
      ↔ k ∈ mapKeys m ∨ ∃ v ∈ l, v.Name = k := by
  induction l generalizing m with
  | nil => simp
  | cons x xs ih =>
    rw [List.foldl_cons, ih, mem_mapKeys_mapAssign]
    simp only [List.mem_cons, exists_eq_or_imp]
    constructor
    · rintro ((h | h) | h)
      · exact Or.inr (Or.inl h.symm)
      · exact Or.inl h
      · exact Or.inr (Or.inr h)
    · rintro (h | h | h)
      · exact Or.inl (Or.inr h)
      · exact Or.inl (Or.inl h.symm)
      · exact Or.inr h

/-- The assignments keep the keys distinct. -/
theorem foldl_mapAssign_nodup {ν γ β : Type} (K : Kinds ν γ β) (l : List (DataSource ν))
    (m : List (String × GeneratorSchema γ β)) (h : (mapKeys m).Nodup) :
    (mapKeys (l.foldl (fun acc v => mapAssign acc v.Name (NewSchema K v).1) m)).Nodup := by
  induction l generalizing m with
  | nil => exact h
  | cons x xs ih =>
    rw [List.foldl_cons]
    exact ih _ (nodup_mapKeys_mapAssign m x.Name _ h)

/-- C26. `NewSchemas` is all-or-nothing and keyed by name. If `NewSchema` fails for a data
source and succeeds for the ones listed before it, `NewSchemas` answers the nil map and
the error of that data source, the first failing one in list order. If `NewSchema`
succeeds for every data source, `NewSchemas` answers a nil error and a map whose keys, one
per name, are exactly the names of the data sources, and in which every name is bound to
the schema of the last data source of the list that carries it. -/
theorem schemas_all_or_nothing {ν γ β : Type} (K : Kinds ν γ β) (spec : Specification ν) :
    (∀ (pre : List (DataSource ν)) (v : DataSource ν) (post : List (DataSource ν))
        (err : GoError), spec.DataSources = pre ++ v :: post →
        (∀ x ∈ pre, (NewSchema K x).2 = none) → (NewSchema K v).2 = some err →
        NewSchemas K spec = ([], some err))
      ∧ ((∀ x ∈ spec.DataSources, (NewSchema K x).2 = none) →
          (NewSchemas K spec).2 = none
            ∧ (∀ k, k ∈ mapKeys (NewSchemas K spec).1 ↔ ∃ v ∈ spec.DataSources, v.Name = k)
            ∧ (mapKeys (NewSchemas K spec).1).Nodup
            ∧ ∀ k, mapLookup (NewSchemas K spec).1 k
                = (lastWithName spec.DataSources k).map (fun v => (NewSchema K v).1)) := by
  constructor
  · intro pre v post err hl hpre hv
    unfold NewSchemas
    rw [hl]
    exact schemasLoop_error K pre v post [] err hpre hv
  · intro h
    unfold NewSchemas
    rw [schemasLoop_success K _ [] h]
    refine ⟨rfl, fun k => ?_, ?_, fun k => ?_⟩
    · rw [foldl_mapAssign_keys]
      simp [mapKeys]
    · exact foldl_mapAssign_nodup K _ [] (by simp [mapKeys])
    · rw [foldl_mapAssign_lookup]
      cases lastWithName spec.DataSources k <;> rfl

/-- C26, witness: two data sources named `x` around one named `y`, all assembled; the map
has the keys `x` and `y`, and `x` is bound to the schema of the second data source of
that name. -/
theorem schemas_all_or_nothing_witness :
    (NewSchemas sampleKinds
        { DataSources :=
            [{ Name := "x", Schema := { Attributes := [{ Name := "a", Int32 := some () }] } },
             { Name := "y" },
             { Name := "x", Schema := { Attributes := [{ Name := "b", Bool := some () }] } }] }).2
        = none
      ∧ mapKeys (NewSchemas sampleKinds
        { DataSources :=
            [{ Name := "x", Schema := { Attributes := [{ Name := "a", Int32 := some () }] } },
             { Name := "y" },
             { Name := "x", Schema := { Attributes := [{ Name := "b", Bool := some () }] } }] }).1
        = ["x", "y"]
      ∧ (mapLookup (NewSchemas sampleKinds
        { DataSources :=
            [{ Name := "x", Schema := { Attributes := [{ Name := "a", Int32 := some () }] } },
             { Name := "y" },
             { Name := "x", Schema := { Attributes := [{ Name := "b", Bool := some () }] } }] }).1
          "x").map (fun s => s.Attributes) = some [("b", some "bool attribute b")] :=
  ⟨((schemas_all_or_nothing sampleKinds
        { DataSources :=
            [{ Name := "x", Schema := { Attributes := [{ Name := "a", Int32 := some () }] } },
             { Name := "y" },
             { Name := "x", Schema := { Attributes := [{ Name := "b", Bool := some () }] } }] }).2
      (by decide)).1,
   by decide, by decide⟩

end Assembly

end Codegen
